import Mathlib

/-! # Surface layer of libretro-wolfenstein3d: blit clipping and whole-surface fill

A shallow embedding of `src/surface.c` (`LR_BlitSurface`, `LR_FillRect`,
`LR_SetPalette`, `LR_GetTicks`) and of the colour packing macro of `src/surface.h`.

Conventions of the embedding

* C `int` values are mathematical integers (`Int`).  Signed overflow is undefined
  in C, so the model describes the executions in which it does not occur.
* C `unsigned` arithmetic and narrowing stores are reduced explicitly
  (`% 2 ^ 32`, `% 2 ^ 16`, `% 256`).
* Pointers that may be `NULL` are `Option`s.
* External collaborators (`LRSDL_LowerBlit`, `LRSDL_SetError`) are a function
  parameter and a log of messages.
-/

namespace Surface

/-! ## Data model -/

/-- Modelled from the spec: the declaration of `SDL_Rect` (in `SDL.h`) is not part of
the sources.  The spec describes a rect as four integers `{x, y, width, height}`. -/
structure SDL_Rect where
  x : Int
  y : Int
  w : Int
  h : Int
  deriving DecidableEq, Repr

/-- Modelled from the spec: the declaration of `SDL_Surface` (in `SDL.h`) is not part
of the sources.  Only the fields read by `surface.c` are kept: `w`, `h`, `pitch`,
`locked`, `clip_rect` and `pixels`.  The pixel buffer is byte addressed: `pixels a`
is the byte stored `a` bytes after the base pointer. -/
structure SDL_Surface where
  w : Int
  h : Int
  pitch : Nat
  locked : Nat
  clip_rect : SDL_Rect
  pixels : Nat → Nat

/-- The wrapper `struct LR_Surface { SDL_Surface *surf; }` of `surface.h`;
`none` is the `NULL` pointer. -/
structure LR_Surface where
  surf : Option SDL_Surface

/-- Modelled from the spec: `LRSDL_LowerBlit` is an external collaborator
(`lowerBlit(src, srcRect, dst, dstRect) -> status`), a raw pixel transfer for an
already valid region.  It yields a status and the destination surface after the
transfer; it leaves both rectangles as they are. -/
abbrev LowerBlit := SDL_Surface → SDL_Rect → SDL_Surface → SDL_Rect → Int × SDL_Surface

/-- Everything a caller of `LR_BlitSurface` can observe afterwards. -/
structure BlitOutcome where
  /-- the returned `int` -/
  status : Int
  /-- the messages handed to `LRSDL_SetError`, in order -/
  errors : List String
  /-- the `(source rect, destination rect)` pairs handed to `LRSDL_LowerBlit`, in order -/
  calls : List (SDL_Rect × SDL_Rect)
  /-- the caller's destination rect after the call (`none` when `NULL` was passed) -/
  dstrect : Option SDL_Rect
  /-- the source surface after the call -/
  src : Option SDL_Surface
  /-- the destination surface after the call -/
  dst : Option SDL_Surface

/-! ## `LR_BlitSurface` -/

/-- The diagnostic of `surface.c:201`. -/
def nullSurfaceError : String := "SDL_UpperBlit: passed a NULL surface"

/-- The diagnostic of `surface.c:205`. -/
def lockedSurfaceError : String := "Surfaces must not be locked during blit"

/-- The three variables the clipping code keeps per axis: `srcx`/`srcy`, `w`/`h`
and `dstrect->x`/`dstrect->y`. -/
structure Axis where
  spos : Int
  len : Int
  dpos : Int
  deriving DecidableEq, Repr

/-- Clipping of the source rectangle to the source surface on one axis:
`surface.c:219-228` for X (`size` is `src->w`), `surface.c:230-239` for Y
(`size` is `src->h`).
```
srcx = srcrect->x;  w = srcrect->w;
if (srcx < 0) { w += srcx; dstrect->x -= srcx; srcx = 0; }
maxw = src->w - srcx;
if (maxw < w) w = maxw;
```
-/
def clipSourceAxis (a : Axis) (size : Int) : Axis :=
  let a1 : Axis :=
    if a.spos < 0 then { spos := 0, len := a.len + a.spos, dpos := a.dpos - a.spos } else a
  let maxw := size - a1.spos
  if maxw < a1.len then { a1 with len := maxw } else a1

/-- Clipping of the destination rectangle against the clip rectangle on one axis:
`surface.c:252-260` for X, `surface.c:262-270` for Y.
```
dx = clip->x - dstrect->x;
if (dx > 0) { w -= dx; dstrect->x += dx; srcx += dx; }
dx = dstrect->x + w - clip->x - clip->w;
if (dx > 0) w -= dx;
```
-/
def clipDestAxis (a : Axis) (clipPos clipLen : Int) : Axis :=
  let dx := clipPos - a.dpos
  let a1 : Axis :=
    if dx > 0 then { spos := a.spos + dx, len := a.len - dx, dpos := a.dpos + dx } else a
  let dx2 := a1.dpos + a1.len - clipPos - clipLen
  if dx2 > 0 then { a1 with len := a1.len - dx2 } else a1

/-- The local `SDL_Rect fulldst` of `surface.c:194` after `fulldst.x = fulldst.y = 0`.
Its `w` and `h` are indeterminate at that point; they are written (lines 277, 278,
289) before anything reads them, so the model fixes them to `0`. -/
def fulldst : SDL_Rect := { x := 0, y := 0, w := 0, h := 0 }

/-- The destination rectangle the clipping starts from: the caller's, or `fulldst`
when `NULL` was passed (`surface.c:210-213`):
`if (dstrect == NULL) { fulldst.x = fulldst.y = 0; dstrect = &fulldst; }`. -/
def startRect (dstrect : Option SDL_Rect) : SDL_Rect :=
  match dstrect with
  | some r => r
  | none => fulldst

/-- The X axis after both clipping steps (`surface.c:216-260`): the values of
`srcx`, `w` and `dstrect->x` that reach the test of line 273. -/
def clipX (src : SDL_Surface) (srcrect : Option SDL_Rect) (dst : SDL_Surface)
    (d0 : SDL_Rect) : Axis :=
  let a : Axis :=
    match srcrect with
    | some r => clipSourceAxis { spos := r.x, len := r.w, dpos := d0.x } src.w
    | none => { spos := 0, len := src.w, dpos := d0.x }
  clipDestAxis a dst.clip_rect.x dst.clip_rect.w

/-- The Y axis after both clipping steps (`surface.c:216-270`): the values of
`srcy`, `h` and `dstrect->y` that reach the test of line 273. -/
def clipY (src : SDL_Surface) (srcrect : Option SDL_Rect) (dst : SDL_Surface)
    (d0 : SDL_Rect) : Axis :=
  let a : Axis :=
    match srcrect with
    | some r => clipSourceAxis { spos := r.y, len := r.h, dpos := d0.y } src.h
    | none => { spos := 0, len := src.h, dpos := d0.y }
  clipDestAxis a dst.clip_rect.y dst.clip_rect.h

/-- The source rectangle built at `surface.c:274-278`:
`sr.x = srcx; sr.y = srcy; sr.w = w; sr.h = h`. -/
def sourceRect (ax ay : Axis) : SDL_Rect :=
  { x := ax.spos, y := ay.spos, w := ax.len, h := ay.len }

/-- The destination rectangle at `surface.c:287`: the clipped `dstrect->x`,
`dstrect->y` with `dstrect->w = w; dstrect->h = h` (lines 277-278). -/
def destRect (ax ay : Axis) : SDL_Rect :=
  { x := ax.dpos, y := ay.dpos, w := ax.len, h := ay.len }

/-- The destination rectangle at `surface.c:289`: the clipped `dstrect->x`,
`dstrect->y` with `dstrect->w = dstrect->h = 0`. -/
def emptyRect (ax ay : Axis) : SDL_Rect :=
  { x := ax.dpos, y := ay.dpos, w := 0, h := 0 }

/-- `LR_BlitSurface` (`surface.c:190-311`, the `#if 1` branch). -/
def LR_BlitSurface (lower : LowerBlit) (lr_src : LR_Surface) (srcrect : Option SDL_Rect)
    (lr_dst : LR_Surface) (dstrect : Option SDL_Rect) : BlitOutcome :=
  match lr_src.surf, lr_dst.surf with
  | some src, some dst =>
    -- if (src->locked || dst->locked) { LRSDL_SetError(...); return (-1); }
    if src.locked ≠ 0 ∨ dst.locked ≠ 0 then
      { status := -1, errors := [lockedSurfaceError], calls := [], dstrect := dstrect,
        src := some src, dst := some dst }
    else
      let d0 := startRect dstrect
      let ax := clipX src srcrect dst d0
      let ay := clipY src srcrect dst d0
      -- if (w > 0 && h > 0) { ...; return LRSDL_LowerBlit(src, &sr, dst, dstrect); }
      if ax.len > 0 ∧ ay.len > 0 then
        let r := lower src (sourceRect ax ay) dst (destRect ax ay)
        { status := r.1, errors := [], calls := [(sourceRect ax ay, destRect ax ay)],
          dstrect := dstrect.map (fun _ => destRect ax ay), src := some src,
          dst := some r.2 }
      else
        -- dstrect->w = dstrect->h = 0; ... return 0;
        { status := 0, errors := [], calls := [],
          dstrect := dstrect.map (fun _ => emptyRect ax ay),
          src := some src, dst := some dst }
  -- if (!src || !dst) { LRSDL_SetError(...); return (-1); }
  | s, d =>
    { status := -1, errors := [nullSurfaceError], calls := [], dstrect := dstrect,
      src := s, dst := d }

/-! ## `LR_FillRect` -/

/-- Conversion of an `int` to `unsigned` (32 bits), as in the loop tests
`i < surface->surf->w` and `j < surface->surf->h` of `surface.c:128-129`. -/
def toUnsigned (z : Int) : Nat := (z % 2 ^ 32).toNat

/-- Byte `k` (in memory order, `k < 4`) of the 32-bit word `v` for the byte order
of the platform. -/
def wordByte (bigEndian : Bool) (v k : Nat) : Nat :=
  if bigEndian then (v / 256 ^ (3 - k)) % 256 else (v / 256 ^ k) % 256

/-- The store `*(uint32_t*)pix = color` of `surface.c:132` at byte offset `a`. -/
def store32 (bigEndian : Bool) (mem : Nat → Nat) (a v : Nat) : Nat → Nat :=
  fun b => if a ≤ b ∧ b < a + 4 then wordByte bigEndian v (b - a) else mem b

/-- The 32-bit word read back from the four bytes at byte offset `a`. -/
def load32 (bigEndian : Bool) (mem : Nat → Nat) (a : Nat) : Nat :=
  if bigEndian then
    mem a * 16777216 + mem (a + 1) * 65536 + mem (a + 2) * 256 + mem (a + 3)
  else
    mem a + mem (a + 1) * 256 + mem (a + 2) * 65536 + mem (a + 3) * 16777216

/-- The byte offset of `surface.c:131`, `j * surface->surf->pitch + i * 4`.  The
counters `i` and `j` are declared `unsigned` (line 122), so both products are
computed in `unsigned` arithmetic, that is modulo `2 ^ 32`, for every integer type
of `pitch` that is not wider than `unsigned`; the two products are added to the
base pointer one after the other. -/
def pixelOffset (pitch j i : Nat) : Nat :=
  (j * pitch) % 2 ^ 32 + (i * 4) % 2 ^ 32

/-- The inner loop of `surface.c:129-133` for a fixed column `i`:
`fillRows .. n` is the buffer after the iterations `j = 0, .., n - 1`. -/
def fillRows (bigEndian : Bool) (pitch i color : Nat) : Nat → (Nat → Nat) → (Nat → Nat)
  | 0, mem => mem
  | n + 1, mem =>
    store32 bigEndian (fillRows bigEndian pitch i color n mem) (pixelOffset pitch n i) color

/-- The outer loop of `surface.c:128-133`: `fillColumns .. n` is the buffer after
the iterations `i = 0, .., n - 1`, each running the whole inner loop over `rows`
rows. -/
def fillColumns (bigEndian : Bool) (pitch rows color : Nat) : Nat → (Nat → Nat) → (Nat → Nat)
  | 0, mem => mem
  | n + 1, mem =>
    fillRows bigEndian pitch n color rows (fillColumns bigEndian pitch rows color n mem)

/-- The global `unsigned short d_8to16table[256]` (`surface.c:24`), as the map from
an index to the entry stored there. -/
abbrev PaletteTable := Nat → Nat

/-- The loop `for (i = 0, j = 0; i < 256; i++, j += 3) *pal++ = v;`
(`surface.c:125-126`): `fillPalette v n` is the table after the iterations
`i = 0, .., n - 1`. -/
def fillPalette (v : Nat) : Nat → PaletteTable → PaletteTable
  | 0, t => t
  | n + 1, t => fun k => if k = n then v else fillPalette v n t k

/-- `LR_FillRect` (`surface.c:120-134`).  `surface->surf` is dereferenced without a
test, so the model takes the pointee.  The result is the palette table and the
surface afterwards.  The stored table entry is the colour converted to
`unsigned short`. -/
def LR_FillRect (bigEndian : Bool) (d_8to16table : PaletteTable) (surface : SDL_Surface)
    (rect_data : Option SDL_Rect) (color : Nat) : PaletteTable × SDL_Surface :=
  let _unused := rect_data
  let table := fillPalette (color % 2 ^ 16) 256 d_8to16table
  let pixels := fillColumns bigEndian surface.pitch (toUnsigned surface.h) color
    (toUnsigned surface.w) surface.pixels
  (table, { surface with pixels := pixels })

/-! ## `SET_COLORFORMAT` and `LR_SetPalette` -/

/-- The constant `RED_EXPAND` of `surface.h:20`. -/
def RED_EXPAND : Nat := 3

/-- The constant `GREEN_EXPAND` of `surface.h:21`. -/
def GREEN_EXPAND : Nat := 2

/-- The constant `BLUE_EXPAND` of `surface.h:22`. -/
def BLUE_EXPAND : Nat := 3

/-- The constant `RED_SHIFT` of `surface.h:24`. -/
def RED_SHIFT : Nat := 11

/-- The constant `GREEN_SHIFT` of `surface.h:25`. -/
def GREEN_SHIFT : Nat := 5

/-- The constant `BLUE_SHIFT` of `surface.h:26`. -/
def BLUE_SHIFT : Nat := 0

/-- The macro `SET_COLORFORMAT(r, g, b)` of `surface.h:28`,
`((r >> RED_EXPAND) << RED_SHIFT | (g >> GREEN_EXPAND) << GREEN_SHIFT
| (b >> BLUE_EXPAND) << BLUE_SHIFT)`, on non-negative arguments.  In C the shifts
bind tighter than the bitwise or. -/
def SET_COLORFORMAT (r g b : Nat) : Nat :=
  ((r >>> RED_EXPAND) <<< RED_SHIFT) ||| ((g >>> GREEN_EXPAND) <<< GREEN_SHIFT)
    ||| ((b >>> BLUE_EXPAND) <<< BLUE_SHIFT)

/-- Modelled from the spec: the macro `MAKECOLOR` used at `surface.c:147` is not
defined in the sources.  The spec has the palette table hold the packed form of a
colour, computed by ColorPack (`((r >> 3) << 11) | ((g >> 2) << 5) | ((b >> 3) << 0)`),
which is `SET_COLORFORMAT`. -/
def MAKECOLOR (r g b : Nat) : Nat := SET_COLORFORMAT r g b

/-- The colour record `struct LR_Color` of `surface.h:12-18`; each field is a
`uint8_t`. -/
structure LR_Color where
  r : Nat
  g : Nat
  b : Nat
  unused : Nat
  deriving DecidableEq, Repr

/-- The arguments of one call of the external `SDL_SetPalette` (`surface.c:149`). -/
structure SetPaletteCall where
  surface : Option SDL_Surface
  flags : Int
  colors : List LR_Color
  firstcolor : Int
  ncolors : Int

/-- The effect of `LR_SetPalette`: the palette table afterwards and the calls of
`SDL_SetPalette` it made. -/
structure PaletteOutcome where
  table : PaletteTable
  calls : List SetPaletteCall

/-- The function `LR_SetPalette` (`surface.c:141-150`).  The macro it uses is the
parameter `makecolor`.  The array `colors` is a list; `colors->r` reads its first
element, and on an empty array that read has no defined value (`none`).  The
stored table entry is the macro's value converted to `unsigned short`.  The
external `SDL_SetPalette` does not know the table and leaves it alone.
```
for(i = 0, j = 0; i < 256; i++, j += 3)
   *pal++ = MAKECOLOR(colors->r, colors->g, colors->b);
SDL_SetPalette(surface, flags, (SDL_Color*)colors, firstcolor, ncolors);
```
-/
def LR_SetPalette (makecolor : Nat → Nat → Nat → Nat) (d_8to16table : PaletteTable)
    (surface : Option SDL_Surface) (flags : Int) (colors : List LR_Color)
    (firstcolor ncolors : Int) : Option PaletteOutcome :=
  match colors with
  | [] => none
  | c :: _ =>
    some
      { table := fillPalette (makecolor c.r c.g c.b % 2 ^ 16) 256 d_8to16table,
        calls := [{ surface := surface, flags := flags, colors := colors,
                    firstcolor := firstcolor, ncolors := ncolors }] }

/-! ## `LR_GetTicks` -/

/-- What the platform clock hands to `rarch_get_perf_counter`, one constructor per
kind of branch of the `#if` chain of `surface.c:66-110`:
`monotonic` is `clock_gettime(CLOCK_MONOTONIC, &tv)` with its return value and the
non-negative `tv.tv_sec`, `tv.tv_nsec` (lines 66-70); `counter` is a raw hardware
counter (lines 72-89); `timeofday` is a seconds and microseconds pair (lines
90-109). -/
inductive ClockReading where
  | monotonic (ret : Int) (tv_sec tv_nsec : Nat)
  | counter (ticks : Nat)
  | timeofday (tv_sec tv_usec : Nat)

/-- The value of `time_ticks` (a `uint64_t`) before the division of
`surface.c:112`.
* lines 68-70: `if (clock_gettime(..) == 0) time_ticks =
  (retro_perf_tick_t)tv.tv_sec * 1000000000 + (retro_perf_tick_t)tv.tv_nsec;`,
  otherwise the initial `0`;
* lines 75-89: the counter itself;
* lines 93, 109: `time_ticks = (1000000 * tv_sec + tv_usec);`. -/
def time_ticks (c : ClockReading) : Nat :=
  match c with
  | .monotonic ret tv_sec tv_nsec =>
    if ret = 0 then ((tv_sec % 2 ^ 64) * 1000000000 + tv_nsec % 2 ^ 64) % 2 ^ 64 else 0
  | .counter ticks => ticks % 2 ^ 64
  | .timeofday tv_sec tv_usec => (1000000 * tv_sec + tv_usec) % 2 ^ 64

/-- The function `rarch_get_perf_counter` (`surface.c:63-113`):
`return time_ticks / 1000000;`. -/
def rarch_get_perf_counter (c : ClockReading) : Nat :=
  time_ticks c / 1000000

/-- The function `LR_GetTicks` (`surface.c:115-118`):
`return (uint32_t)rarch_get_perf_counter();`. -/
def LR_GetTicks (c : ClockReading) : Nat :=
  rarch_get_perf_counter c % 2 ^ 32

/-! ## The intersection a blit is specified to transfer -/

/-- The source rectangle a blit is asked for: the caller's, or
`{0, 0, src.w, src.h}` when none is given. -/
def requestedSource (src : SDL_Surface) (srcrect : Option SDL_Rect) : SDL_Rect :=
  match srcrect with
  | some r => r
  | none => { x := 0, y := 0, w := src.w, h := src.h }

/-- Lower end of the specified interval on one axis,
`max (d0 + max 0 (-s0)) clip.pos`, for the source origin `s0`, the destination
origin `d0` and the clip origin `clipPos`. -/
def spanLo (s0 d0 clipPos : Int) : Int :=
  max (d0 + max 0 (-s0)) clipPos

/-- Upper end of the specified interval on one axis,
`min (d0 - s0 + min (s0 + len0) size) (clip.pos + clip.len)`. -/
def spanHi (s0 len0 size d0 clipPos clipLen : Int) : Int :=
  min (d0 - s0 + min (s0 + len0) size) (clipPos + clipLen)

/-- The box of the two specified intervals: the destination rectangle a blit is
specified to cover. -/
def spanBox (src : SDL_Surface) (srcrect : Option SDL_Rect) (dst : SDL_Surface)
    (dstrect : Option SDL_Rect) : SDL_Rect :=
  let q := requestedSource src srcrect
  let d := startRect dstrect
  { x := spanLo q.x d.x dst.clip_rect.x,
    y := spanLo q.y d.y dst.clip_rect.y,
    w := spanHi q.x q.w src.w d.x dst.clip_rect.x dst.clip_rect.w
          - spanLo q.x d.x dst.clip_rect.x,
    h := spanHi q.y q.h src.h d.y dst.clip_rect.y dst.clip_rect.h
          - spanLo q.y d.y dst.clip_rect.y }

/-- The rectangle `r` translated by `(tx, ty)`. -/
def translate (r : SDL_Rect) (tx ty : Int) : SDL_Rect :=
  { x := r.x + tx, y := r.y + ty, w := r.w, h := r.h }

/-- The outcome of an empty blit: status `0`, no diagnostic, no call of the
backend, both surfaces as before, and a present `dstrect` with `w = h = 0`. -/
def SuccessfulNoop (out : BlitOutcome) (src dst : SDL_Surface)
    (dstrect : Option SDL_Rect) : Prop :=
  out.status = 0 ∧ out.errors = [] ∧ out.calls = [] ∧
  out.src = some src ∧ out.dst = some dst ∧
  (dstrect = none → out.dstrect = none) ∧
  (∀ d, dstrect = some d → ∃ r, out.dstrect = some r ∧ r.w = 0 ∧ r.h = 0)

/-! ## Sample data -/

/-- A backend that copies nothing and reports success. -/
def idleBlit : LowerBlit := fun _ _ dst _ => (0, dst)

/-- A blank surface of the given size whose clip rectangle is the whole surface. -/
def blankSurface (w h : Int) : SDL_Surface :=
  { w := w, h := h, pitch := (4 * w).toNat, locked := 0,
    clip_rect := { x := 0, y := 0, w := w, h := h }, pixels := fun _ => 0 }

/-- A surface one pixel wide and 65539 rows high with a pitch of 65535 bytes; its
last row starts `65538 * 65535 = 2 ^ 32 + 65534` bytes after the base pointer. -/
def tallSurface : SDL_Surface :=
  { w := 1, h := 65539, pitch := 65535, locked := 0,
    clip_rect := { x := 0, y := 0, w := 1, h := 65539 }, pixels := fun _ => 0 }

/-- A 3x2 surface with a pitch of 13 bytes (one byte of padding per row) whose
bytes all hold 7. -/
def paddedSurface : SDL_Surface :=
  { w := 3, h := 2, pitch := 13, locked := 0,
    clip_rect := { x := 0, y := 0, w := 3, h := 2 }, pixels := fun _ => 7 }

/-! ## Lemmas on the clipping steps -/

/-- Closed form of the source clipping step on one axis. -/
theorem clipSourceAxis_eq (s len d size : Int) :
    clipSourceAxis { spos := s, len := len, dpos := d } size =
      { spos := max s 0, len := min (s + len) size - max s 0, dpos := d + (max s 0 - s) } := by
  unfold clipSourceAxis
  simp only
  split_ifs <;> (dsimp only at *; rw [Axis.mk.injEq]; omega)

/-- Closed form of the destination clipping step on one axis. -/
theorem clipDestAxis_eq (s len d cp cl : Int) :
    clipDestAxis { spos := s, len := len, dpos := d } cp cl =
      { spos := s + (max d cp - d), len := min (d + len) (cp + cl) - max d cp,
        dpos := max d cp } := by
  unfold clipDestAxis
  simp only
  split_ifs <;> (dsimp only at *; rw [Axis.mk.injEq]; omega)

/-- Closed form of the X axis when a source rectangle is given. -/
theorem clipX_some (src dst : SDL_Surface) (r d0 : SDL_Rect) :
    clipX src (some r) dst d0 =
      { spos := max (d0.x + (max r.x 0 - r.x)) dst.clip_rect.x + (r.x - d0.x),
        len := min (d0.x - r.x + min (r.x + r.w) src.w)
                 (dst.clip_rect.x + dst.clip_rect.w)
               - max (d0.x + (max r.x 0 - r.x)) dst.clip_rect.x,
        dpos := max (d0.x + (max r.x 0 - r.x)) dst.clip_rect.x } := by
  simp only [clipX, clipSourceAxis_eq, clipDestAxis_eq]
  rw [Axis.mk.injEq]
  omega

/-- Closed form of the X axis when no source rectangle is given. -/
theorem clipX_none (src dst : SDL_Surface) (d0 : SDL_Rect) :
    clipX src none dst d0 =
      { spos := max d0.x dst.clip_rect.x - d0.x,
        len := min (d0.x + src.w) (dst.clip_rect.x + dst.clip_rect.w)
               - max d0.x dst.clip_rect.x,
        dpos := max d0.x dst.clip_rect.x } := by
  simp only [clipX, clipDestAxis_eq]
  rw [Axis.mk.injEq]
  omega

/-- Closed form of the Y axis when a source rectangle is given. -/
theorem clipY_some (src dst : SDL_Surface) (r d0 : SDL_Rect) :
    clipY src (some r) dst d0 =
      { spos := max (d0.y + (max r.y 0 - r.y)) dst.clip_rect.y + (r.y - d0.y),
        len := min (d0.y - r.y + min (r.y + r.h) src.h)
                 (dst.clip_rect.y + dst.clip_rect.h)
               - max (d0.y + (max r.y 0 - r.y)) dst.clip_rect.y,
        dpos := max (d0.y + (max r.y 0 - r.y)) dst.clip_rect.y } := by
  simp only [clipY, clipSourceAxis_eq, clipDestAxis_eq]
  rw [Axis.mk.injEq]
  omega

/-- Closed form of the Y axis when no source rectangle is given. -/
theorem clipY_none (src dst : SDL_Surface) (d0 : SDL_Rect) :
    clipY src none dst d0 =
      { spos := max d0.y dst.clip_rect.y - d0.y,
        len := min (d0.y + src.h) (dst.clip_rect.y + dst.clip_rect.h)
               - max d0.y dst.clip_rect.y,
        dpos := max d0.y dst.clip_rect.y } := by
  simp only [clipY, clipDestAxis_eq]
  rw [Axis.mk.injEq]
  omega

/-- With both surfaces present and unlocked the call reaches the clipping code,
and its outcome is decided by the two clipped axes alone. -/
theorem LR_BlitSurface_unlocked (lower : LowerBlit) (src dst : SDL_Surface)
    (srcrect dstrect : Option SDL_Rect) (hs : src.locked = 0) (hd : dst.locked = 0) :
    LR_BlitSurface lower { surf := some src } srcrect { surf := some dst } dstrect =
      if 0 < (clipX src srcrect dst (startRect dstrect)).len ∧
          0 < (clipY src srcrect dst (startRect dstrect)).len then
        { status :=
            (lower src
              (sourceRect (clipX src srcrect dst (startRect dstrect))
                (clipY src srcrect dst (startRect dstrect)))
              dst
              (destRect (clipX src srcrect dst (startRect dstrect))
                (clipY src srcrect dst (startRect dstrect)))).1,
          errors := [],
          calls :=
            [(sourceRect (clipX src srcrect dst (startRect dstrect))
                (clipY src srcrect dst (startRect dstrect)),
              destRect (clipX src srcrect dst (startRect dstrect))
                (clipY src srcrect dst (startRect dstrect)))],
          dstrect := dstrect.map (fun _ =>
              destRect (clipX src srcrect dst (startRect dstrect))
                (clipY src srcrect dst (startRect dstrect))),
          src := some src,
          dst := some (lower src
              (sourceRect (clipX src srcrect dst (startRect dstrect))
                (clipY src srcrect dst (startRect dstrect)))
              dst
              (destRect (clipX src srcrect dst (startRect dstrect))
                (clipY src srcrect dst (startRect dstrect)))).2 }
      else
        { status := 0, errors := [], calls := [],
          dstrect := dstrect.map (fun _ =>
              emptyRect (clipX src srcrect dst (startRect dstrect))
                (clipY src srcrect dst (startRect dstrect))),
          src := some src, dst := some dst } := by
  simp [LR_BlitSurface, hs, hd]

/-- The clipped X axis stays inside the source surface, inside the requested source
rectangle and inside the clip rectangle, and keeps the distance between the
destination and the source origin. -/
theorem clipX_bounds (src dst : SDL_Surface) (srcrect : Option SDL_Rect) (d0 : SDL_Rect) :
    0 ≤ (clipX src srcrect dst d0).spos ∧
    (clipX src srcrect dst d0).spos + (clipX src srcrect dst d0).len ≤ src.w ∧
    (∀ r, srcrect = some r →
      r.x ≤ (clipX src srcrect dst d0).spos ∧
      (clipX src srcrect dst d0).spos + (clipX src srcrect dst d0).len ≤ r.x + r.w) ∧
    dst.clip_rect.x ≤ (clipX src srcrect dst d0).dpos ∧
    (clipX src srcrect dst d0).dpos + (clipX src srcrect dst d0).len
      ≤ dst.clip_rect.x + dst.clip_rect.w := by
  cases srcrect with
  | none =>
    rw [clipX_none]
    refine ⟨?_, ?_, ?_, ?_, ?_⟩
    · dsimp only; omega
    · dsimp only; omega
    · intro r hr; cases hr
    · dsimp only; omega
    · dsimp only; omega
  | some q =>
    rw [clipX_some]
    refine ⟨?_, ?_, ?_, ?_, ?_⟩
    · dsimp only; omega
    · dsimp only; omega
    · intro r hr
      cases hr
      dsimp only
      omega
    · dsimp only; omega
    · dsimp only; omega

/-- The clipped Y axis stays inside the source surface, inside the requested source
rectangle and inside the clip rectangle. -/
theorem clipY_bounds (src dst : SDL_Surface) (srcrect : Option SDL_Rect) (d0 : SDL_Rect) :
    0 ≤ (clipY src srcrect dst d0).spos ∧
    (clipY src srcrect dst d0).spos + (clipY src srcrect dst d0).len ≤ src.h ∧
    (∀ r, srcrect = some r →
      r.y ≤ (clipY src srcrect dst d0).spos ∧
      (clipY src srcrect dst d0).spos + (clipY src srcrect dst d0).len ≤ r.y + r.h) ∧
    dst.clip_rect.y ≤ (clipY src srcrect dst d0).dpos ∧
    (clipY src srcrect dst d0).dpos + (clipY src srcrect dst d0).len
      ≤ dst.clip_rect.y + dst.clip_rect.h := by
  cases srcrect with
  | none =>
    rw [clipY_none]
    refine ⟨?_, ?_, ?_, ?_, ?_⟩
    · dsimp only; omega
    · dsimp only; omega
    · intro r hr; cases hr
    · dsimp only; omega
    · dsimp only; omega
  | some q =>
    rw [clipY_some]
    refine ⟨?_, ?_, ?_, ?_, ?_⟩
    · dsimp only; omega
    · dsimp only; omega
    · intro r hr
      cases hr
      dsimp only
      omega
    · dsimp only; omega
    · dsimp only; omega

/-- A recorded call of the backend is the pair built from the two clipped axes,
both of positive extent. -/
theorem call_of_mem (lower : LowerBlit) (src dst : SDL_Surface)
    (srcrect dstrect : Option SDL_Rect) (hs : src.locked = 0) (hd : dst.locked = 0)
    (sr dr : SDL_Rect)
    (hcall : (sr, dr) ∈
      (LR_BlitSurface lower { surf := some src } srcrect { surf := some dst } dstrect).calls) :
    0 < (clipX src srcrect dst (startRect dstrect)).len ∧
    0 < (clipY src srcrect dst (startRect dstrect)).len ∧
    sr = sourceRect (clipX src srcrect dst (startRect dstrect))
      (clipY src srcrect dst (startRect dstrect)) ∧
    dr = destRect (clipX src srcrect dst (startRect dstrect))
      (clipY src srcrect dst (startRect dstrect)) := by
  rw [LR_BlitSurface_unlocked lower src dst srcrect dstrect hs hd] at hcall
  split_ifs at hcall with hpos
  · simp only [List.mem_singleton, Prod.mk.injEq] at hcall
    exact ⟨hpos.1, hpos.2, hcall.1, hcall.2⟩
  · simp at hcall

/-- The clipped X axis in terms of the specified interval. -/
theorem clipX_span (src dst : SDL_Surface) (srcrect dstrect : Option SDL_Rect) :
    clipX src srcrect dst (startRect dstrect) =
      { spos := (spanBox src srcrect dst dstrect).x
                  + ((requestedSource src srcrect).x - (startRect dstrect).x),
        len := (spanBox src srcrect dst dstrect).w,
        dpos := (spanBox src srcrect dst dstrect).x } := by
  cases srcrect with
  | none =>
    rw [clipX_none, Axis.mk.injEq]
    simp only [spanBox, requestedSource, spanLo, spanHi]
    omega
  | some q =>
    rw [clipX_some, Axis.mk.injEq]
    simp only [spanBox, requestedSource, spanLo, spanHi]
    omega

/-- The clipped Y axis in terms of the specified interval. -/
theorem clipY_span (src dst : SDL_Surface) (srcrect dstrect : Option SDL_Rect) :
    clipY src srcrect dst (startRect dstrect) =
      { spos := (spanBox src srcrect dst dstrect).y
                  + ((requestedSource src srcrect).y - (startRect dstrect).y),
        len := (spanBox src srcrect dst dstrect).h,
        dpos := (spanBox src srcrect dst dstrect).y } := by
  cases srcrect with
  | none =>
    rw [clipY_none, Axis.mk.injEq]
    simp only [spanBox, requestedSource, spanLo, spanHi]
    omega
  | some q =>
    rw [clipY_some, Axis.mk.injEq]
    simp only [spanBox, requestedSource, spanLo, spanHi]
    omega

/-! ## Lemmas on the role of the destination rectangle -/

/-- The X axis reads the destination rectangle through its `x` alone. -/
theorem clipX_start (src dst : SDL_Surface) (srcrect : Option SDL_Rect) (d0 d1 : SDL_Rect)
    (h : d0.x = d1.x) : clipX src srcrect dst d0 = clipX src srcrect dst d1 := by
  unfold clipX
  rw [h]

/-- The Y axis reads the destination rectangle through its `y` alone. -/
theorem clipY_start (src dst : SDL_Surface) (srcrect : Option SDL_Rect) (d0 d1 : SDL_Rect)
    (h : d0.y = d1.y) : clipY src srcrect dst d0 = clipY src srcrect dst d1 := by
  unfold clipY
  rw [h]

/-- The X axis of the full source rectangle is that of an omitted one. -/
theorem clipX_full (src dst : SDL_Surface) (d0 : SDL_Rect) :
    clipX src (some { x := 0, y := 0, w := src.w, h := src.h }) dst d0
      = clipX src none dst d0 := by
  rw [clipX_some, clipX_none, Axis.mk.injEq]
  dsimp only
  omega

/-- The Y axis of the full source rectangle is that of an omitted one. -/
theorem clipY_full (src dst : SDL_Surface) (d0 : SDL_Rect) :
    clipY src (some { x := 0, y := 0, w := src.w, h := src.h }) dst d0
      = clipY src none dst d0 := by
  rw [clipY_some, clipY_none, Axis.mk.injEq]
  dsimp only
  omega

/-- A source span inside the source and a destination span of the same length
inside the clip rectangle pass the X clipping unchanged. -/
theorem clipX_valid (src dst : SDL_Surface) (r d : SDL_Rect)
    (h0 : 0 ≤ r.x) (h1 : r.x + r.w ≤ src.w)
    (h2 : dst.clip_rect.x ≤ d.x) (h3 : d.x + r.w ≤ dst.clip_rect.x + dst.clip_rect.w) :
    clipX src (some r) dst d = { spos := r.x, len := r.w, dpos := d.x } := by
  rw [clipX_some, Axis.mk.injEq]
  omega

/-- A source span inside the source and a destination span of the same length
inside the clip rectangle pass the Y clipping unchanged. -/
theorem clipY_valid (src dst : SDL_Surface) (r d : SDL_Rect)
    (h0 : 0 ≤ r.y) (h1 : r.y + r.h ≤ src.h)
    (h2 : dst.clip_rect.y ≤ d.y) (h3 : d.y + r.h ≤ dst.clip_rect.y + dst.clip_rect.h) :
    clipY src (some r) dst d = { spos := r.y, len := r.h, dpos := d.y } := by
  rw [clipY_some, Axis.mk.injEq]
  omega

/-! ## Lemmas on `LR_FillRect` -/

/-- An `int` in `[0, 2 ^ 32)` converts to `unsigned` without change. -/
theorem toUnsigned_natCast (n : Nat) (hn : n < 2 ^ 32) : toUnsigned (n : Int) = n := by
  unfold toUnsigned
  have h : ((n : Int) % 2 ^ 32) = (n : Int) := Int.emod_eq_of_lt (by omega) (by omega)
  rw [h]
  exact Int.toNat_ofNat n

/-- A byte outside the four stored ones keeps its value. -/
theorem store32_other (be : Bool) (mem : Nat → Nat) (a v b : Nat)
    (hb : b < a ∨ a + 4 ≤ b) : store32 be mem a v b = mem b := by
  unfold store32
  rw [if_neg (by omega)]

/-- Reading back the word just stored gives its low 32 bits. -/
theorem load32_store32_same (be : Bool) (mem : Nat → Nat) (a v : Nat) :
    load32 be (store32 be mem a v) a = v % 2 ^ 32 := by
  have h0 : store32 be mem a v a = wordByte be v 0 := by
    unfold store32
    rw [if_pos (by omega), Nat.sub_self]
  have h1 : store32 be mem a v (a + 1) = wordByte be v 1 := by
    unfold store32
    rw [if_pos (by omega), Nat.add_sub_cancel_left]
  have h2 : store32 be mem a v (a + 2) = wordByte be v 2 := by
    unfold store32
    rw [if_pos (by omega), Nat.add_sub_cancel_left]
  have h3 : store32 be mem a v (a + 3) = wordByte be v 3 := by
    unfold store32
    rw [if_pos (by omega), Nat.add_sub_cancel_left]
  unfold load32
  rw [h0, h1, h2, h3]
  cases be
  · simp only [wordByte, Bool.false_eq_true, if_false]
    norm_num
    omega
  · simp only [wordByte, if_true]
    norm_num
    omega

/-- A word that does not overlap the stored one reads as before. -/
theorem load32_store32_disjoint (be : Bool) (mem : Nat → Nat) (a v a' : Nat)
    (hd : a' + 4 ≤ a ∨ a + 4 ≤ a') :
    load32 be (store32 be mem a v) a' = load32 be mem a' := by
  unfold load32
  rw [store32_other be mem a v a' (by omega), store32_other be mem a v (a' + 1) (by omega),
    store32_other be mem a v (a' + 2) (by omega), store32_other be mem a v (a' + 3) (by omega)]

/-- The inner loop leaves every byte outside the cells it stores to as it was. -/
theorem fillRows_untouched (be : Bool) (pitch i color : Nat) (mem : Nat → Nat) (b : Nat) :
    ∀ n : Nat,
      (∀ j, j < n → b < pixelOffset pitch j i ∨ pixelOffset pitch j i + 4 ≤ b) →
      fillRows be pitch i color n mem b = mem b := by
  intro n
  induction n with
  | zero => intro _; rfl
  | succ n ih =>
    intro h
    show store32 be (fillRows be pitch i color n mem) (pixelOffset pitch n i) color b = mem b
    rw [store32_other be _ _ _ b (h n (Nat.lt_succ_self n))]
    exact ih (fun j hj => h j (Nat.lt_succ_of_lt hj))

/-- The whole fill leaves every byte outside the cells it stores to as it was. -/
theorem fillColumns_untouched (be : Bool) (pitch rows color : Nat) (mem : Nat → Nat)
    (b : Nat) :
    ∀ n : Nat,
      (∀ i j, i < n → j < rows →
        b < pixelOffset pitch j i ∨ pixelOffset pitch j i + 4 ≤ b) →
      fillColumns be pitch rows color n mem b = mem b := by
  intro n
  induction n with
  | zero => intro _; rfl
  | succ n ih =>
    intro h
    show fillRows be pitch n color rows (fillColumns be pitch rows color n mem) b = mem b
    rw [fillRows_untouched be pitch n color _ b rows
      (fun j hj => h n j (Nat.lt_succ_self n) hj)]
    exact ih (fun i j hi hj => h i j (Nat.lt_succ_of_lt hi) hj)

/-- A word that overlaps none of the cells of a column reads as before the inner
loop. -/
theorem load32_fillRows_disjoint (be : Bool) (pitch i color : Nat) (mem : Nat → Nat)
    (a n : Nat)
    (h : ∀ j, j < n → a + 4 ≤ pixelOffset pitch j i ∨ pixelOffset pitch j i + 4 ≤ a) :
    load32 be (fillRows be pitch i color n mem) a = load32 be mem a := by
  unfold load32
  rw [fillRows_untouched be pitch i color mem a n (fun j hj => by have := h j hj; omega),
    fillRows_untouched be pitch i color mem (a + 1) n (fun j hj => by have := h j hj; omega),
    fillRows_untouched be pitch i color mem (a + 2) n (fun j hj => by have := h j hj; omega),
    fillRows_untouched be pitch i color mem (a + 3) n (fun j hj => by have := h j hj; omega)]

/-- A word that overlaps none of the cells reads as before the whole fill. -/
theorem load32_fillColumns_disjoint (be : Bool) (pitch rows color : Nat) (mem : Nat → Nat)
    (a : Nat) :
    ∀ n : Nat,
      (∀ i j, i < n → j < rows →
        a + 4 ≤ pixelOffset pitch j i ∨ pixelOffset pitch j i + 4 ≤ a) →
      load32 be (fillColumns be pitch rows color n mem) a = load32 be mem a := by
  intro n
  induction n with
  | zero => intro _; rfl
  | succ n ih =>
    intro h
    show load32 be (fillRows be pitch n color rows (fillColumns be pitch rows color n mem)) a
      = load32 be mem a
    rw [load32_fillRows_disjoint be pitch n color _ a rows
      (fun j hj => h n j (Nat.lt_succ_self n) hj)]
    exact ih (fun i j hi hj => h i j (Nat.lt_succ_of_lt hi) hj)

/-- After the inner loop every cell of the column holds the colour, provided the
cells of the column do not overlap one another. -/
theorem fillRows_cell (be : Bool) (pitch i color : Nat) (mem : Nat → Nat) :
    ∀ n : Nat,
      (∀ j j', j < n → j' < n → j ≠ j' →
        pixelOffset pitch j i + 4 ≤ pixelOffset pitch j' i ∨
        pixelOffset pitch j' i + 4 ≤ pixelOffset pitch j i) →
      ∀ j, j < n →
        load32 be (fillRows be pitch i color n mem) (pixelOffset pitch j i) = color % 2 ^ 32 := by
  intro n
  induction n with
  | zero => intro _ j hj; omega
  | succ n ih =>
    intro hdis j hj
    show load32 be (store32 be (fillRows be pitch i color n mem) (pixelOffset pitch n i) color)
      (pixelOffset pitch j i) = color % 2 ^ 32
    by_cases hjn : j = n
    · subst hjn
      exact load32_store32_same be _ _ _
    · have hlt : j < n := by omega
      rw [load32_store32_disjoint be _ _ _ _ (hdis j n hj (Nat.lt_succ_self n) hjn)]
      exact ih (fun a b ha hb hab => hdis a b (Nat.lt_succ_of_lt ha) (Nat.lt_succ_of_lt hb) hab)
        j hlt

/-- After the whole fill every cell holds the colour, provided no two cells
overlap. -/
theorem fillColumns_cell (be : Bool) (pitch rows color : Nat) (mem : Nat → Nat) :
    ∀ n : Nat,
      (∀ i i' j j', i < n → i' < n → j < rows → j' < rows → (i ≠ i' ∨ j ≠ j') →
        pixelOffset pitch j i + 4 ≤ pixelOffset pitch j' i' ∨
        pixelOffset pitch j' i' + 4 ≤ pixelOffset pitch j i) →
      ∀ i j, i < n → j < rows →
        load32 be (fillColumns be pitch rows color n mem) (pixelOffset pitch j i)
          = color % 2 ^ 32 := by
  intro n
  induction n with
  | zero => intro _ i j hi; omega
  | succ n ih =>
    intro hdis i j hi hj
    show load32 be (fillRows be pitch n color rows (fillColumns be pitch rows color n mem))
      (pixelOffset pitch j i) = color % 2 ^ 32
    by_cases hin : i = n
    · subst hin
      exact fillRows_cell be pitch i color _ rows
        (fun a b ha hb hab =>
          hdis i i a b (Nat.lt_succ_self i) (Nat.lt_succ_self i) ha hb (Or.inr hab))
        j hj
    · have hlt : i < n := by omega
      rw [load32_fillRows_disjoint be pitch n color _ (pixelOffset pitch j i) rows
        (fun j' hj' => hdis i n j j' hi (Nat.lt_succ_self n) hj hj' (Or.inl hin))]
      exact ih
        (fun a a' b b' ha ha' hb hb' hne =>
          hdis a a' b b' (Nat.lt_succ_of_lt ha) (Nat.lt_succ_of_lt ha') hb hb' hne)
        i j hlt hj

/-- When the buffer of `H` rows of `P` bytes fits in 32-bit offsets and a row holds
`W` pixels, the offset of the cell `(j, i)` is computed without wrap-around. -/
theorem pixelOffset_eq (P W H j i : Nat) (hP : 4 * W ≤ P) (hfit : H * P ≤ 2 ^ 32)
    (hj : j < H) (hi : i < W) : pixelOffset P j i = j * P + i * 4 := by
  have h1 : (j + 1) * P ≤ H * P := Nat.mul_le_mul_right P hj
  have h2 : (j + 1) * P = j * P + P := Nat.succ_mul j P
  unfold pixelOffset
  rw [Nat.mod_eq_of_lt (by omega), Nat.mod_eq_of_lt (by omega)]

/-- Cells of distinct pixels do not overlap when a row holds at most `P / 4` pixels. -/
theorem cells_disjoint (P W j j' i i' : Nat) (hP : 4 * W ≤ P) (hi : i < W) (hi' : i' < W)
    (hne : i ≠ i' ∨ j ≠ j') :
    j * P + i * 4 + 4 ≤ j' * P + i' * 4 ∨ j' * P + i' * 4 + 4 ≤ j * P + i * 4 := by
  rcases Nat.lt_trichotomy j j' with hlt | heq | hgt
  · have h1 : (j + 1) * P ≤ j' * P := Nat.mul_le_mul_right P hlt
    have h2 : (j + 1) * P = j * P + P := Nat.succ_mul j P
    omega
  · subst heq
    omega
  · have h1 : (j' + 1) * P ≤ j * P := Nat.mul_le_mul_right P hgt
    have h2 : (j' + 1) * P = j' * P + P := Nat.succ_mul j' P
    omega

/-! ## Lemmas on `SET_COLORFORMAT` and the palette loop -/

/-- Three bit fields of widths 5, 6 and 5 combined by bitwise or add up. -/
theorem or_of_fields (a b c : Nat) (hb : b < 64) (hc : c < 32) :
    ((a <<< 11) ||| (b <<< 5)) ||| (c <<< 0) = a * 2048 + b * 32 + c := by
  have h1 : 2 ^ 5 * b + c = 2 ^ 5 * b ||| c := Nat.mul_add_lt_is_or (by omega) b
  have h2 : 2 ^ 11 * a + (2 ^ 5 * b + c) = 2 ^ 11 * a ||| (2 ^ 5 * b + c) :=
    Nat.mul_add_lt_is_or (by omega) a
  rw [Nat.or_assoc, Nat.shiftLeft_eq, Nat.shiftLeft_eq, Nat.shiftLeft_eq, Nat.pow_zero,
    Nat.mul_one, Nat.mul_comm a, Nat.mul_comm b, ← h1, ← h2]
  omega

/-- A multiple of `2 ^ i` and a number below `2 ^ i` share no bit. -/
theorem and_of_fields (x y i : Nat) (hx : x % 2 ^ i = 0) (hy : y < 2 ^ i) :
    x &&& y = 0 := by
  have h1 : y &&& (2 ^ i - 1) = y := by
    rw [Nat.and_pow_two_sub_one_eq_mod, Nat.mod_eq_of_lt hy]
  have h2 : x &&& (2 ^ i - 1) = 0 := by
    rw [Nat.and_pow_two_sub_one_eq_mod, hx]
  calc x &&& y = x &&& (y &&& (2 ^ i - 1)) := by rw [h1]
    _ = (x &&& (2 ^ i - 1)) &&& y := by rw [Nat.and_comm y, Nat.and_assoc]
    _ = 0 := by rw [h2, Nat.zero_and]

/-- Closed form of `SET_COLORFORMAT` on 8-bit green and blue channels. -/
theorem SET_COLORFORMAT_eq (r g b : Nat) (hg : g < 256) (hb : b < 256) :
    SET_COLORFORMAT r g b = (r / 8) * 2048 + (g / 4) * 32 + b / 8 := by
  unfold SET_COLORFORMAT RED_EXPAND GREEN_EXPAND BLUE_EXPAND RED_SHIFT GREEN_SHIFT BLUE_SHIFT
  rw [or_of_fields _ _ _ (by rw [Nat.shiftRight_eq_div_pow]; omega)
    (by rw [Nat.shiftRight_eq_div_pow]; omega)]
  simp only [Nat.shiftRight_eq_div_pow]

set_option maxRecDepth 8000 in
/-- Masking an 8-bit channel with `0xF8` keeps its top five bits. -/
theorem mask_F8 : ∀ r, r < 256 → (r &&& 0xF8) / 8 = r / 8 := by decide

set_option maxRecDepth 8000 in
/-- Masking an 8-bit channel with `0xFC` keeps its top six bits. -/
theorem mask_FC : ∀ g, g < 256 → (g &&& 0xFC) / 4 = g / 4 := by decide

/-- After `n` iterations of the palette loop the first `n` entries hold the value
and the others are as before. -/
theorem fillPalette_apply (v : Nat) (t : PaletteTable) :
    ∀ n k : Nat, fillPalette v n t k = if k < n then v else t k := by
  intro n
  induction n with
  | zero => intro k; rfl
  | succ n ih =>
    intro k
    show (if k = n then v else fillPalette v n t k) = if k < n + 1 then v else t k
    rw [ih k]
    by_cases h1 : k = n
    · rw [if_pos h1, if_pos (by omega)]
    · rw [if_neg h1]
      by_cases h2 : k < n
      · rw [if_pos h2, if_pos (by omega)]
      · rw [if_neg h2, if_neg (by omega)]

/-! ## The claims -/

/-- C1: whenever `LR_BlitSurface` on present, unlocked surfaces hands a pair of
rectangles to `LRSDL_LowerBlit`, the source rectangle lies inside the source
surface bounds and inside the requested source rectangle (when one was given), the
destination rectangle lies inside `dst->clip_rect`, and both rectangles have the
same positive width and height. -/
theorem blit_call_inside_source_and_clip (lower : LowerBlit) (src dst : SDL_Surface)
    (srcrect dstrect : Option SDL_Rect) (hs : src.locked = 0) (hd : dst.locked = 0)
    (sr dr : SDL_Rect)
    (hcall : (sr, dr) ∈
      (LR_BlitSurface lower { surf := some src } srcrect { surf := some dst } dstrect).calls) :
    (0 ≤ sr.x ∧ sr.x < src.w ∧ sr.x + sr.w ≤ src.w ∧
      0 ≤ sr.y ∧ sr.y < src.h ∧ sr.y + sr.h ≤ src.h) ∧
    (∀ r, srcrect = some r →
      r.x ≤ sr.x ∧ sr.x + sr.w ≤ r.x + r.w ∧ r.y ≤ sr.y ∧ sr.y + sr.h ≤ r.y + r.h) ∧
    (dst.clip_rect.x ≤ dr.x ∧ dr.x + dr.w ≤ dst.clip_rect.x + dst.clip_rect.w ∧
      dst.clip_rect.y ≤ dr.y ∧ dr.y + dr.h ≤ dst.clip_rect.y + dst.clip_rect.h) ∧
    (sr.w = dr.w ∧ sr.h = dr.h ∧ 0 < sr.w ∧ 0 < sr.h) := by
  obtain ⟨hx, hy, hsr, hdr⟩ := call_of_mem lower src dst srcrect dstrect hs hd sr dr hcall
  obtain ⟨x1, x2, x3, x4, x5⟩ := clipX_bounds src dst srcrect (startRect dstrect)
  obtain ⟨y1, y2, y3, y4, y5⟩ := clipY_bounds src dst srcrect (startRect dstrect)
  subst hsr hdr
  simp only [sourceRect, destRect]
  refine ⟨⟨x1, by omega, x2, y1, by omega, y2⟩, ?_, ⟨x4, x5, y4, y5⟩, trivial, trivial, hx, hy⟩
  intro r hr
  exact ⟨(x3 r hr).1, (x3 r hr).2, (y3 r hr).1, (y3 r hr).2⟩

/-- Witness for C1: a 64x64 source blitted with source rectangle `{-5, -3, 40, 40}`
to `{20, 20}` of a 32x32 destination; the backend receives `{0, 0, 7, 9}` and
`{25, 23, 7, 9}`. -/
theorem blit_call_inside_source_and_clip_witness :
    (({ x := 0, y := 0, w := 7, h := 9 }, { x := 25, y := 23, w := 7, h := 9 }) ∈
      (LR_BlitSurface idleBlit { surf := some (blankSurface 64 64) }
        (some { x := -5, y := -3, w := 40, h := 40 }) { surf := some (blankSurface 32 32) }
        (some { x := 20, y := 20, w := 0, h := 0 })).calls) ∧
    ((0 : Int) ≤ 0 ∧ (0 : Int) < 64 ∧ (0 : Int) + 7 ≤ 64 ∧
      (0 : Int) ≤ 0 ∧ (0 : Int) < 64 ∧ (0 : Int) + 9 ≤ 64) ∧
    ((-5 : Int) ≤ 0 ∧ (0 : Int) + 7 ≤ -5 + 40 ∧ (-3 : Int) ≤ 0 ∧ (0 : Int) + 9 ≤ -3 + 40) ∧
    ((0 : Int) ≤ 25 ∧ (25 : Int) + 7 ≤ 0 + 32 ∧ (0 : Int) ≤ 23 ∧ (23 : Int) + 9 ≤ 0 + 32) :=
  have h := blit_call_inside_source_and_clip idleBlit (blankSurface 64 64) (blankSurface 32 32)
    (some { x := -5, y := -3, w := 40, h := 40 }) (some { x := 20, y := 20, w := 0, h := 0 })
    rfl rfl { x := 0, y := 0, w := 7, h := 9 } { x := 25, y := 23, w := 7, h := 9 }
    (by decide)
  ⟨by decide, h.1, h.2.1 _ rfl, h.2.2.1⟩

/-- C2: on present, unlocked surfaces `LR_BlitSurface` transfers exactly the
geometric intersection.  With the X interval
`[max (d0x + max 0 (-s0x)) clip.x, min (d0x - s0x + min (s0x + w0) src.w) (clip.x + clip.w))`
and the symmetric Y interval (`spanBox` is their box), `LRSDL_LowerBlit` is called
if and only if both intervals are non-empty; it is then called once, with the box
as destination rectangle and the box translated by `(s0x - d0x, s0y - d0y)` as
source rectangle, and the box is what the caller finds in `dstrect`.  In the
scenario of the spec (64x64 source, clip `{0,0,32,32}`, `srcrect = {0,0,64,64}`,
`dstrect = {16,16,0,0}`) the destination is `{16,16,16,16}` and the source
`{0,0,16,16}`. -/
theorem blit_transfers_exact_intersection (lower : LowerBlit) (src dst : SDL_Surface)
    (srcrect dstrect : Option SDL_Rect) (hs : src.locked = 0) (hd : dst.locked = 0) :
    ((LR_BlitSurface lower { surf := some src } srcrect { surf := some dst } dstrect).calls ≠ []
      ↔ 0 < (spanBox src srcrect dst dstrect).w ∧ 0 < (spanBox src srcrect dst dstrect).h) ∧
    (0 < (spanBox src srcrect dst dstrect).w ∧ 0 < (spanBox src srcrect dst dstrect).h →
      (LR_BlitSurface lower { surf := some src } srcrect { surf := some dst } dstrect).calls =
        [(translate (spanBox src srcrect dst dstrect)
            ((requestedSource src srcrect).x - (startRect dstrect).x)
            ((requestedSource src srcrect).y - (startRect dstrect).y),
          spanBox src srcrect dst dstrect)] ∧
      (LR_BlitSurface lower { surf := some src } srcrect { surf := some dst } dstrect).dstrect =
        dstrect.map (fun _ => spanBox src srcrect dst dstrect)) ∧
    (LR_BlitSurface lower { surf := some (blankSurface 64 64) }
        (some { x := 0, y := 0, w := 64, h := 64 })
        { surf := some (blankSurface 32 32) }
        (some { x := 16, y := 16, w := 0, h := 0 })).calls =
      [({ x := 0, y := 0, w := 16, h := 16 }, { x := 16, y := 16, w := 16, h := 16 })] := by
  refine ⟨?_, ?_, rfl⟩
  · rw [LR_BlitSurface_unlocked lower src dst srcrect dstrect hs hd, clipX_span, clipY_span]
    split_ifs with hpos
    · simpa using hpos
    · simpa using hpos
  · intro hpos
    rw [LR_BlitSurface_unlocked lower src dst srcrect dstrect hs hd, clipX_span, clipY_span]
    rw [if_pos hpos]
    simp [sourceRect, destRect, translate]

/-- Witness for C2: a source rectangle that starts left of and above the source,
on a destination whose clip rectangle `{4, 4, 20, 20}` cuts the blit on the right
and at the bottom. -/
theorem blit_transfers_exact_intersection_witness :
    (blankSurface 64 64).locked = 0 ∧
    (LR_BlitSurface idleBlit { surf := some (blankSurface 64 64) }
        (some { x := -5, y := -3, w := 40, h := 40 })
        { surf := some { blankSurface 32 32 with clip_rect := { x := 4, y := 4, w := 20, h := 20 } } }
        (some { x := 10, y := 1, w := 0, h := 0 })).calls =
      [({ x := 0, y := 0, w := 9, h := 20 }, { x := 15, y := 4, w := 9, h := 20 })] :=
  ⟨rfl,
    ((blit_transfers_exact_intersection idleBlit (blankSurface 64 64)
      { blankSurface 32 32 with clip_rect := { x := 4, y := 4, w := 20, h := 20 } }
      (some { x := -5, y := -3, w := 40, h := 40 }) (some { x := 10, y := 1, w := 0, h := 0 })
      rfl rfl).2.1 (by decide)).1⟩

/-- C3: clipping preserves the source/destination pixel correspondence.  For every
call that reaches `LRSDL_LowerBlit` on present, unlocked surfaces, the final
destination origin minus the final source origin equals the requested destination
origin minus the requested source origin on both axes (an absent rectangle counts
as origin `(0, 0)`), and the rectangle passed is what the caller finds in
`dstrect`.  Step by step: the negative-source-origin step and the clip-rectangle
step each move `dstrect->x` and `srcx` by the same amount. -/
theorem blit_preserves_pixel_correspondence (lower : LowerBlit) (src dst : SDL_Surface)
    (srcrect dstrect : Option SDL_Rect) (hs : src.locked = 0) (hd : dst.locked = 0)
    (sr dr : SDL_Rect)
    (hcall : (sr, dr) ∈
      (LR_BlitSurface lower { surf := some src } srcrect { surf := some dst } dstrect).calls) :
    dr.x - sr.x = (startRect dstrect).x - (requestedSource src srcrect).x ∧
    dr.y - sr.y = (startRect dstrect).y - (requestedSource src srcrect).y ∧
    (LR_BlitSurface lower { surf := some src } srcrect { surf := some dst } dstrect).dstrect
      = dstrect.map (fun _ => dr) ∧
    (∀ (a : Axis) (size : Int),
      (clipSourceAxis a size).dpos - a.dpos = (clipSourceAxis a size).spos - a.spos) ∧
    (∀ (a : Axis) (clipPos clipLen : Int),
      (clipDestAxis a clipPos clipLen).dpos - a.dpos
        = (clipDestAxis a clipPos clipLen).spos - a.spos) := by
  obtain ⟨hx, hy, hsr, hdr⟩ := call_of_mem lower src dst srcrect dstrect hs hd sr dr hcall
  subst hsr hdr
  refine ⟨?_, ?_, ?_, ?_, ?_⟩
  · simp only [sourceRect, destRect, clipX_span]; omega
  · simp only [sourceRect, destRect, clipY_span]; omega
  · rw [LR_BlitSurface_unlocked lower src dst srcrect dstrect hs hd, if_pos ⟨hx, hy⟩]
  · intro a size
    obtain ⟨s, l, d⟩ := a
    rw [clipSourceAxis_eq]
    dsimp only
    omega
  · intro a clipPos clipLen
    obtain ⟨s, l, d⟩ := a
    rw [clipDestAxis_eq]
    dsimp only
    omega

/-- Witness for C3: source rectangle `{-5, -3, 40, 40}` blitted to `{10, 1}` under
the clip rectangle `{4, 4, 20, 20}`: both differences stay `15` and `4`. -/
theorem blit_preserves_pixel_correspondence_witness :
    (({ x := 0, y := 0, w := 9, h := 20 }, { x := 15, y := 4, w := 9, h := 20 }) ∈
      (LR_BlitSurface idleBlit { surf := some (blankSurface 64 64) }
        (some { x := -5, y := -3, w := 40, h := 40 })
        { surf := some { blankSurface 32 32 with clip_rect := { x := 4, y := 4, w := 20, h := 20 } } }
        (some { x := 10, y := 1, w := 0, h := 0 })).calls) ∧
    (15 : Int) - 0 = 10 - (-5) ∧ (4 : Int) - 0 = 1 - (-3) :=
  have h := blit_preserves_pixel_correspondence idleBlit (blankSurface 64 64)
    { blankSurface 32 32 with clip_rect := { x := 4, y := 4, w := 20, h := 20 } }
    (some { x := -5, y := -3, w := 40, h := 40 }) (some { x := 10, y := 1, w := 0, h := 0 })
    rfl rfl { x := 0, y := 0, w := 9, h := 20 } { x := 15, y := 4, w := 9, h := 20 }
    (by decide)
  ⟨by decide, h.1, h.2.1⟩

/-- C4: clipping is a no-op on already valid input.  For present, unlocked surfaces
`S` and `D`, a source rectangle `R` of positive width and height inside the bounds
of `S`, and a destination rectangle `R'` of the same size inside `D.clip_rect`,
`LR_BlitSurface` calls `LRSDL_LowerBlit` exactly once, with source rectangle `R`
and destination rectangle `R'`, and leaves the caller's `dstrect` equal to `R'`. -/
theorem blit_noop_on_valid_input (lower : LowerBlit) (S D : SDL_Surface) (R R' : SDL_Rect)
    (hs : S.locked = 0) (hd : D.locked = 0)
    (hw : 0 < R.w) (hh : 0 < R.h)
    (hx0 : 0 ≤ R.x) (hx1 : R.x + R.w ≤ S.w) (hy0 : 0 ≤ R.y) (hy1 : R.y + R.h ≤ S.h)
    (hw' : R'.w = R.w) (hh' : R'.h = R.h)
    (hcx0 : D.clip_rect.x ≤ R'.x) (hcx1 : R'.x + R'.w ≤ D.clip_rect.x + D.clip_rect.w)
    (hcy0 : D.clip_rect.y ≤ R'.y) (hcy1 : R'.y + R'.h ≤ D.clip_rect.y + D.clip_rect.h) :
    (LR_BlitSurface lower { surf := some S } (some R) { surf := some D } (some R')).calls
      = [(R, R')] ∧
    (LR_BlitSurface lower { surf := some S } (some R) { surf := some D } (some R')).dstrect
      = some R' ∧
    (LR_BlitSurface lower { surf := some S } (some R) { surf := some D } (some R')).status
      = (lower S R D R').1 := by
  have hX : clipX S (some R) D (startRect (some R')) =
      { spos := R.x, len := R.w, dpos := R'.x } := by
    rw [clipX_some, Axis.mk.injEq]
    simp only [startRect]
    omega
  have hY : clipY S (some R) D (startRect (some R')) =
      { spos := R.y, len := R.h, dpos := R'.y } := by
    rw [clipY_some, Axis.mk.injEq]
    simp only [startRect]
    omega
  have hsr : sourceRect { spos := R.x, len := R.w, dpos := R'.x }
      { spos := R.y, len := R.h, dpos := R'.y } = R := rfl
  have hdr : destRect { spos := R.x, len := R.w, dpos := R'.x }
      { spos := R.y, len := R.h, dpos := R'.y } = R' := by
    obtain ⟨x', y', w', h'⟩ := R'
    dsimp only at hw' hh'
    subst hw' hh'
    rfl
  rw [LR_BlitSurface_unlocked lower S (D) (some R) (some R') hs hd, hX, hY,
    if_pos ⟨hw, hh⟩, hsr, hdr]
  simp

/-- Witness for C4: the sub-rectangle `{8, 8, 16, 16}` of a 64x64 source blitted to
`{4, 12, 16, 16}` of a 32x32 destination. -/
theorem blit_noop_on_valid_input_witness :
    (LR_BlitSurface idleBlit { surf := some (blankSurface 64 64) }
        (some { x := 8, y := 8, w := 16, h := 16 }) { surf := some (blankSurface 32 32) }
        (some { x := 4, y := 12, w := 16, h := 16 })).calls
      = [({ x := 8, y := 8, w := 16, h := 16 }, { x := 4, y := 12, w := 16, h := 16 })] ∧
    (LR_BlitSurface idleBlit { surf := some (blankSurface 64 64) }
        (some { x := 8, y := 8, w := 16, h := 16 }) { surf := some (blankSurface 32 32) }
        (some { x := 4, y := 12, w := 16, h := 16 })).dstrect
      = some { x := 4, y := 12, w := 16, h := 16 } :=
  have h := blit_noop_on_valid_input idleBlit (blankSurface 64 64) (blankSurface 32 32)
    { x := 8, y := 8, w := 16, h := 16 } { x := 4, y := 12, w := 16, h := 16 }
    rfl rfl (by decide) (by decide) (by decide) (by decide) (by decide) (by decide)
    rfl rfl (by decide) (by decide) (by decide) (by decide)
  ⟨h.1, h.2.1⟩

/-- C5: an empty blit is a successful no-op.  On present, unlocked surfaces, whenever
the clipped width or the clipped height is not positive, `LR_BlitSurface` returns
`0`, reports no error, does not call `LRSDL_LowerBlit`, leaves both surfaces as
they are and sets `dstrect->w = dstrect->h = 0`.  In particular this is the outcome
whenever the destination origin lies at or beyond the right or bottom edge of
`dst->clip_rect`, whatever the source rectangle and the surface sizes are. -/
theorem blit_empty_is_successful_noop (lower : LowerBlit) (src dst : SDL_Surface)
    (srcrect dstrect : Option SDL_Rect) (hs : src.locked = 0) (hd : dst.locked = 0) :
    (((clipX src srcrect dst (startRect dstrect)).len ≤ 0 ∨
        (clipY src srcrect dst (startRect dstrect)).len ≤ 0) →
      SuccessfulNoop
        (LR_BlitSurface lower { surf := some src } srcrect { surf := some dst } dstrect)
        src dst dstrect) ∧
    (((startRect dstrect).x ≥ dst.clip_rect.x + dst.clip_rect.w ∨
        (startRect dstrect).y ≥ dst.clip_rect.y + dst.clip_rect.h) →
      SuccessfulNoop
        (LR_BlitSurface lower { surf := some src } srcrect { surf := some dst } dstrect)
        src dst dstrect) := by
  have key : ((clipX src srcrect dst (startRect dstrect)).len ≤ 0 ∨
        (clipY src srcrect dst (startRect dstrect)).len ≤ 0) →
      SuccessfulNoop
        (LR_BlitSurface lower { surf := some src } srcrect { surf := some dst } dstrect)
        src dst dstrect := by
    intro hempty
    have hneg : ¬ (0 < (clipX src srcrect dst (startRect dstrect)).len ∧
        0 < (clipY src srcrect dst (startRect dstrect)).len) := by omega
    rw [LR_BlitSurface_unlocked lower src dst srcrect dstrect hs hd, if_neg hneg]
    refine ⟨rfl, rfl, rfl, rfl, rfl, ?_, ?_⟩
    · intro hnone
      subst hnone
      rfl
    · intro d hdd
      subst hdd
      exact ⟨_, rfl, rfl, rfl⟩
  refine ⟨key, ?_⟩
  intro hout
  apply key
  cases srcrect with
  | none =>
    rw [clipX_none, clipY_none]
    dsimp only
    omega
  | some q =>
    rw [clipX_some, clipY_some]
    dsimp only
    omega

/-- Witness for C5: a blit to `{32, 5}` of a 32x32 destination, whose origin lies on
the right edge of the clip rectangle. -/
theorem blit_empty_is_successful_noop_witness :
    ((32 : Int) ≥ 0 + 32 ∨ (5 : Int) ≥ 0 + 32) ∧
    SuccessfulNoop
      (LR_BlitSurface idleBlit { surf := some (blankSurface 64 64) }
        (some { x := 0, y := 0, w := 64, h := 64 }) { surf := some (blankSurface 32 32) }
        (some { x := 32, y := 5, w := 7, h := 7 }))
      (blankSurface 64 64) (blankSurface 32 32) (some { x := 32, y := 5, w := 7, h := 7 }) :=
  ⟨by decide,
    (blit_empty_is_successful_noop idleBlit (blankSurface 64 64) (blankSurface 32 32)
      (some { x := 0, y := 0, w := 64, h := 64 }) (some { x := 32, y := 5, w := 7, h := 7 })
      rfl rfl).2 (by decide)⟩

/-- C6: if the source surface or the destination surface is absent,
`LR_BlitSurface` returns `-1`, hands the NULL-surface diagnostic to
`LRSDL_SetError`, does not call `LRSDL_LowerBlit` and leaves `dstrect` and both
surfaces unchanged, for every choice of rectangles and whatever the lock state of
the other surface is. -/
theorem blit_absent_surface_is_invalid (lower : LowerBlit) (lr_src lr_dst : LR_Surface)
    (srcrect dstrect : Option SDL_Rect)
    (habsent : lr_src.surf = none ∨ lr_dst.surf = none) :
    (LR_BlitSurface lower lr_src srcrect lr_dst dstrect).status = -1 ∧
    (LR_BlitSurface lower lr_src srcrect lr_dst dstrect).errors = [nullSurfaceError] ∧
    (LR_BlitSurface lower lr_src srcrect lr_dst dstrect).calls = [] ∧
    (LR_BlitSurface lower lr_src srcrect lr_dst dstrect).dstrect = dstrect ∧
    (LR_BlitSurface lower lr_src srcrect lr_dst dstrect).src = lr_src.surf ∧
    (LR_BlitSurface lower lr_src srcrect lr_dst dstrect).dst = lr_dst.surf := by
  obtain ⟨s⟩ := lr_src
  obtain ⟨d⟩ := lr_dst
  cases s with
  | none => cases d <;> simp [LR_BlitSurface]
  | some s' =>
    cases d with
    | none => simp [LR_BlitSurface]
    | some d' => simp at habsent

/-- Witness for C6: the source is absent and the destination is locked; the call
still reports the NULL-surface diagnostic. -/
theorem blit_absent_surface_is_invalid_witness :
    (LR_BlitSurface idleBlit { surf := none } (some { x := 0, y := 0, w := 8, h := 8 })
        { surf := some { blankSurface 32 32 with locked := 1 } }
        (some { x := 1, y := 2, w := 3, h := 4 })).errors = [nullSurfaceError] ∧
    (LR_BlitSurface idleBlit { surf := none } (some { x := 0, y := 0, w := 8, h := 8 })
        { surf := some { blankSurface 32 32 with locked := 1 } }
        (some { x := 1, y := 2, w := 3, h := 4 })).dstrect
      = some { x := 1, y := 2, w := 3, h := 4 } :=
  have h := blit_absent_surface_is_invalid idleBlit { surf := none }
    { surf := some { blankSurface 32 32 with locked := 1 } }
    (some { x := 0, y := 0, w := 8, h := 8 }) (some { x := 1, y := 2, w := 3, h := 4 })
    (Or.inl rfl)
  ⟨h.2.1, h.2.2.2.1⟩

/-- C7: if both surfaces are present and the source or the destination is locked,
`LR_BlitSurface` returns `-1`, hands the locked-surface diagnostic to
`LRSDL_SetError`, does not call `LRSDL_LowerBlit` and leaves `dstrect` (all four
fields) and both surfaces exactly as passed, for every choice of rectangles. -/
theorem blit_locked_surface_is_rejected (lower : LowerBlit) (src dst : SDL_Surface)
    (srcrect dstrect : Option SDL_Rect)
    (hlocked : src.locked ≠ 0 ∨ dst.locked ≠ 0) :
    (LR_BlitSurface lower { surf := some src } srcrect { surf := some dst } dstrect).status = -1 ∧
    (LR_BlitSurface lower { surf := some src } srcrect { surf := some dst } dstrect).errors
      = [lockedSurfaceError] ∧
    (LR_BlitSurface lower { surf := some src } srcrect { surf := some dst } dstrect).calls = [] ∧
    (LR_BlitSurface lower { surf := some src } srcrect { surf := some dst } dstrect).dstrect
      = dstrect ∧
    (LR_BlitSurface lower { surf := some src } srcrect { surf := some dst } dstrect).src
      = some src ∧
    (LR_BlitSurface lower { surf := some src } srcrect { surf := some dst } dstrect).dst
      = some dst := by
  simp only [LR_BlitSurface, if_pos hlocked]
  exact ⟨trivial, trivial, trivial, trivial, trivial, trivial⟩

/-- Witness for C7: a fully valid 16x16 blit is rejected because the destination is
locked, and `dstrect` keeps its four fields. -/
theorem blit_locked_surface_is_rejected_witness :
    (LR_BlitSurface idleBlit { surf := some (blankSurface 64 64) }
        (some { x := 8, y := 8, w := 16, h := 16 })
        { surf := some { blankSurface 32 32 with locked := 1 } }
        (some { x := 4, y := 12, w := 16, h := 16 })).status = -1 ∧
    (LR_BlitSurface idleBlit { surf := some (blankSurface 64 64) }
        (some { x := 8, y := 8, w := 16, h := 16 })
        { surf := some { blankSurface 32 32 with locked := 1 } }
        (some { x := 4, y := 12, w := 16, h := 16 })).dstrect
      = some { x := 4, y := 12, w := 16, h := 16 } :=
  have h := blit_locked_surface_is_rejected idleBlit (blankSurface 64 64)
    { blankSurface 32 32 with locked := 1 }
    (some { x := 8, y := 8, w := 16, h := 16 }) (some { x := 4, y := 12, w := 16, h := 16 })
    (Or.inr (by decide))
  ⟨h.1, h.2.2.2.1⟩

/-- C8: on present, unlocked surfaces, whenever the clipped width and height are
both positive, `LR_BlitSurface` calls `LRSDL_LowerBlit` exactly once and returns
the status of that call, whatever it is.  Consequently a status other than `0` is
returned only if a surface is absent, a surface is locked, or the single call of
`LRSDL_LowerBlit` returned that status. -/
theorem blit_returns_backend_status (lower : LowerBlit) (lr_src lr_dst : LR_Surface)
    (srcrect dstrect : Option SDL_Rect) :
    (∀ src dst, lr_src.surf = some src → lr_dst.surf = some dst →
      src.locked = 0 → dst.locked = 0 →
      0 < (clipX src srcrect dst (startRect dstrect)).len →
      0 < (clipY src srcrect dst (startRect dstrect)).len →
      ∃ sr dr, (LR_BlitSurface lower lr_src srcrect lr_dst dstrect).calls = [(sr, dr)] ∧
        ∀ k, (lower src sr dst dr).1 = k →
          (LR_BlitSurface lower lr_src srcrect lr_dst dstrect).status = k) ∧
    ((LR_BlitSurface lower lr_src srcrect lr_dst dstrect).status ≠ 0 →
      (lr_src.surf = none ∨ lr_dst.surf = none) ∨
      (∃ src dst, lr_src.surf = some src ∧ lr_dst.surf = some dst ∧
        (src.locked ≠ 0 ∨ dst.locked ≠ 0)) ∨
      (∃ src dst sr dr, lr_src.surf = some src ∧ lr_dst.surf = some dst ∧
        (LR_BlitSurface lower lr_src srcrect lr_dst dstrect).calls = [(sr, dr)] ∧
        (lower src sr dst dr).1
          = (LR_BlitSurface lower lr_src srcrect lr_dst dstrect).status)) := by
  obtain ⟨s⟩ := lr_src
  obtain ⟨d⟩ := lr_dst
  constructor
  · intro src dst hs hd hsl hdl hx hy
    dsimp only at hs hd
    subst hs hd
    rw [LR_BlitSurface_unlocked lower src dst srcrect dstrect hsl hdl, if_pos ⟨hx, hy⟩]
    exact ⟨_, _, rfl, fun k hk => hk⟩
  · intro hstatus
    cases s with
    | none => exact Or.inl (Or.inl rfl)
    | some src =>
      cases d with
      | none => exact Or.inl (Or.inr rfl)
      | some dst =>
        by_cases hl : src.locked ≠ 0 ∨ dst.locked ≠ 0
        · exact Or.inr (Or.inl ⟨src, dst, rfl, rfl, hl⟩)
        · have hsl : src.locked = 0 := by omega
          have hdl : dst.locked = 0 := by omega
          rw [LR_BlitSurface_unlocked lower src dst srcrect dstrect hsl hdl] at hstatus ⊢
          split_ifs at hstatus ⊢ with hpos
          · exact Or.inr (Or.inr ⟨src, dst, _, _, rfl, rfl, rfl, rfl⟩)
          · exact absurd rfl hstatus

/-- Witness for C8: a backend that fails with status `-7` on a valid 16x16 blit;
`LR_BlitSurface` calls it once and returns `-7`. -/
theorem blit_returns_backend_status_witness :
    0 < (clipX (blankSurface 64 64) (some { x := 8, y := 8, w := 16, h := 16 })
          (blankSurface 32 32) (startRect (some { x := 4, y := 12, w := 16, h := 16 }))).len ∧
    0 < (clipY (blankSurface 64 64) (some { x := 8, y := 8, w := 16, h := 16 })
          (blankSurface 32 32) (startRect (some { x := 4, y := 12, w := 16, h := 16 }))).len ∧
    (LR_BlitSurface (fun _ _ d _ => (-7, d)) { surf := some (blankSurface 64 64) }
        (some { x := 8, y := 8, w := 16, h := 16 }) { surf := some (blankSurface 32 32) }
        (some { x := 4, y := 12, w := 16, h := 16 })).status = -7 :=
  ⟨by decide, by decide,
    ((blit_returns_backend_status (fun _ _ d _ => (-7, d))
      { surf := some (blankSurface 64 64) } { surf := some (blankSurface 32 32) }
      (some { x := 8, y := 8, w := 16, h := 16 })
      (some { x := 4, y := 12, w := 16, h := 16 })).1
        (blankSurface 64 64) (blankSurface 32 32) rfl rfl rfl rfl (by decide) (by decide)).elim
      (fun _ hsr => hsr.elim (fun _ hdr => hdr.2 (-7) rfl))⟩

/-- C9: negative source origins are absorbed.  For a source rectangle with
`x = -k`, `k > 0`, and width `w0 > k` on a present, unlocked source of width at
least `w0 - k`, a destination whose clip rectangle does not cut the span
`[dstrect.x + k, dstrect.x + w0)` and a non-empty Y extent, `LR_BlitSurface` calls
`LRSDL_LowerBlit` with source `x = 0`, width `w0 - k` and destination
`x = dstrect.x + k`.  The same holds on the Y axis with `y`, `h`, `src->h`. -/
theorem blit_absorbs_negative_source_origin (lower : LowerBlit) (src dst : SDL_Surface)
    (r : SDL_Rect) (dstrect : Option SDL_Rect) (k : Int)
    (hs : src.locked = 0) (hd : dst.locked = 0) (hk : 0 < k) :
    (r.x = -k → k < r.w → r.w - k ≤ src.w →
      dst.clip_rect.x ≤ (startRect dstrect).x + k →
      (startRect dstrect).x + r.w ≤ dst.clip_rect.x + dst.clip_rect.w →
      0 < (clipY src (some r) dst (startRect dstrect)).len →
      ∃ sr dr,
        (LR_BlitSurface lower { surf := some src } (some r) { surf := some dst } dstrect).calls
          = [(sr, dr)] ∧
        sr.x = 0 ∧ sr.w = r.w - k ∧ dr.x = (startRect dstrect).x + k ∧ dr.w = r.w - k) ∧
    (r.y = -k → k < r.h → r.h - k ≤ src.h →
      dst.clip_rect.y ≤ (startRect dstrect).y + k →
      (startRect dstrect).y + r.h ≤ dst.clip_rect.y + dst.clip_rect.h →
      0 < (clipX src (some r) dst (startRect dstrect)).len →
      ∃ sr dr,
        (LR_BlitSurface lower { surf := some src } (some r) { surf := some dst } dstrect).calls
          = [(sr, dr)] ∧
        sr.y = 0 ∧ sr.h = r.h - k ∧ dr.y = (startRect dstrect).y + k ∧ dr.h = r.h - k) := by
  constructor
  · intro hx hw hsw hc0 hc1 hy
    have hX : clipX src (some r) dst (startRect dstrect) =
        { spos := 0, len := r.w - k, dpos := (startRect dstrect).x + k } := by
      rw [clipX_some, Axis.mk.injEq]
      omega
    have hpos : 0 < (clipX src (some r) dst (startRect dstrect)).len ∧
        0 < (clipY src (some r) dst (startRect dstrect)).len := by
      refine ⟨?_, hy⟩
      rw [hX]
      dsimp only
      omega
    rw [LR_BlitSurface_unlocked lower src dst (some r) dstrect hs hd, if_pos hpos, hX]
    exact ⟨_, _, rfl, rfl, rfl, rfl, rfl⟩
  · intro hy hh hsh hc0 hc1 hx
    have hY : clipY src (some r) dst (startRect dstrect) =
        { spos := 0, len := r.h - k, dpos := (startRect dstrect).y + k } := by
      rw [clipY_some, Axis.mk.injEq]
      omega
    have hpos : 0 < (clipX src (some r) dst (startRect dstrect)).len ∧
        0 < (clipY src (some r) dst (startRect dstrect)).len := by
      refine ⟨hx, ?_⟩
      rw [hY]
      dsimp only
      omega
    rw [LR_BlitSurface_unlocked lower src dst (some r) dstrect hs hd, if_pos hpos, hY]
    exact ⟨_, _, rfl, rfl, rfl, rfl, rfl⟩

/-- Witness for C9, the scenario of the spec: `srcrect = {-5, 0, 20, 10}` on a source
of width 15, blitted to `{3, 4}`: the backend gets source `{0, 0, 15, 10}` and
destination `{8, 4, 15, 10}`. -/
theorem blit_absorbs_negative_source_origin_witness :
    ((-5 : Int) = -5 ∧ (5 : Int) < 20 ∧ (20 : Int) - 5 ≤ 15) ∧
    (LR_BlitSurface idleBlit { surf := some (blankSurface 15 64) }
        (some { x := -5, y := 0, w := 20, h := 10 }) { surf := some (blankSurface 32 32) }
        (some { x := 3, y := 4, w := 0, h := 0 })).calls
      = [({ x := 0, y := 0, w := 15, h := 10 }, { x := 8, y := 4, w := 15, h := 10 })] ∧
    (∃ sr dr : SDL_Rect,
      (LR_BlitSurface idleBlit { surf := some (blankSurface 15 64) }
        (some { x := -5, y := 0, w := 20, h := 10 }) { surf := some (blankSurface 32 32) }
        (some { x := 3, y := 4, w := 0, h := 0 })).calls = [(sr, dr)] ∧
      sr.x = 0 ∧ sr.w = 20 - 5 ∧ dr.x = 3 + 5 ∧ dr.w = 20 - 5) :=
  ⟨by decide, by decide,
    (blit_absorbs_negative_source_origin idleBlit (blankSurface 15 64) (blankSurface 32 32)
      { x := -5, y := 0, w := 20, h := 10 } (some { x := 3, y := 4, w := 0, h := 0 }) 5
      rfl rfl (by decide)).1 rfl (by decide) (by decide) (by decide) (by decide) (by decide)⟩

/-- C10 (as amended): on a surface of width `W`, height `H` and pitch `P` with
`P ≥ 4 * W` whose `H * P` bytes lie within 32-bit offsets (`H * P ≤ 2 ^ 32`),
`LR_FillRect` leaves the pixel buffer in the state where, for every `(row, col)` in
`[0, H) x [0, W)`, the four bytes at byte offset `row * P + col * 4` hold the given
32-bit colour, and every byte outside those cells is unchanged; the rect argument
has no influence on the result. -/
theorem fill_writes_every_cell_and_nothing_else (be : Bool) (table : PaletteTable)
    (surface : SDL_Surface) (rect_data : Option SDL_Rect) (color W H : Nat)
    (hW : surface.w = (W : Int)) (hH : surface.h = (H : Int))
    (hWmax : W < 2 ^ 31) (hHmax : H < 2 ^ 31)
    (hP : 4 * W ≤ surface.pitch) (hfit : H * surface.pitch ≤ 2 ^ 32)
    (hc : color < 2 ^ 32) :
    (∀ row col, row < H → col < W →
      load32 be (LR_FillRect be table surface rect_data color).2.pixels
        (row * surface.pitch + col * 4) = color) ∧
    (∀ b,
      (∀ row col, row < H → col < W →
        b < row * surface.pitch + col * 4 ∨ row * surface.pitch + col * 4 + 4 ≤ b) →
      (LR_FillRect be table surface rect_data color).2.pixels b = surface.pixels b) ∧
    (∀ other : Option SDL_Rect,
      LR_FillRect be table surface other color
        = LR_FillRect be table surface rect_data color) := by
  have hWu : toUnsigned surface.w = W := by
    rw [hW]; exact toUnsigned_natCast W (by omega)
  have hHu : toUnsigned surface.h = H := by
    rw [hH]; exact toUnsigned_natCast H (by omega)
  have hpix : (LR_FillRect be table surface rect_data color).2.pixels
      = fillColumns be surface.pitch H color W surface.pixels := by
    simp only [LR_FillRect, hWu, hHu]
  refine ⟨?_, ?_, fun _ => rfl⟩
  · intro row col hrow hcol
    rw [hpix, ← pixelOffset_eq surface.pitch W H row col hP hfit hrow hcol,
      fillColumns_cell be surface.pitch H color surface.pixels W ?_ col row hcol hrow]
    · exact Nat.mod_eq_of_lt hc
    · intro i i' j j' hi hi' hj hj' hne
      rw [pixelOffset_eq surface.pitch W H j i hP hfit hj hi,
        pixelOffset_eq surface.pitch W H j' i' hP hfit hj' hi']
      exact cells_disjoint surface.pitch W j j' i i' hP hi hi' hne
  · intro b hb
    rw [hpix]
    apply fillColumns_untouched
    intro i j hi hj
    rw [pixelOffset_eq surface.pitch W H j i hP hfit hj hi]
    exact hb j i hj hi

/-- Witness for C10 (as amended): a 3x2 surface with pitch 13.  The cell of row 1,
column 2 (offset 21) holds the colour, and the padding byte 12 keeps its 7. -/
theorem fill_writes_every_cell_and_nothing_else_witness :
    (4 * 3 ≤ paddedSurface.pitch ∧ 2 * paddedSurface.pitch ≤ 2 ^ 32) ∧
    load32 false (LR_FillRect false (fun _ => 0) paddedSurface none 0xAABBCCDD).2.pixels
      (1 * paddedSurface.pitch + 2 * 4) = 0xAABBCCDD ∧
    (LR_FillRect false (fun _ => 0) paddedSurface none 0xAABBCCDD).2.pixels 12
      = paddedSurface.pixels 12 :=
  have h := fill_writes_every_cell_and_nothing_else false (fun _ => 0) paddedSurface none
    0xAABBCCDD 3 2 rfl rfl (by decide) (by decide) (by decide) (by decide) (by decide)
  ⟨by decide, h.1 1 2 (by decide) (by decide),
    h.2.1 12 (fun row col hrow hcol => by
      have hp : paddedSurface.pitch = 13 := rfl
      have hr : row = 0 ∨ row = 1 := by omega
      have hc : col = 0 ∨ col = 1 ∨ col = 2 := by omega
      rw [hp]
      rcases hr with hr | hr <;> rcases hc with hc | hc | hc <;> subst hr <;> subst hc <;>
        decide)⟩

/-- Counterexample to C10 as stated: on the surface `tallSurface` (`W = 1`,
`H = 65539`, `P = 65535`, so `P ≥ 4 * W`) filled with `0xFFFFFFFF`, the cell of row
65538, column 0 lies at byte offset `65538 * 65535 + 0 * 4 = 2 ^ 32 + 65534`, but the
`unsigned` product `j * pitch` wraps to `65534`, so the four bytes at the claimed
offset keep their old value `0` instead of the colour. -/
theorem fill_tall_surface_counterexample :
    (0 : Int) ≤ tallSurface.w ∧ (0 : Int) ≤ tallSurface.h ∧
    4 * tallSurface.w ≤ (tallSurface.pitch : Int) ∧
    (65538 : Int) < tallSurface.h ∧ (0 : Int) < tallSurface.w ∧
    load32 false (LR_FillRect false (fun _ => 0) tallSurface none 0xFFFFFFFF).2.pixels
      (65538 * tallSurface.pitch + 0 * 4) ≠ 0xFFFFFFFF := by
  have hw : toUnsigned tallSurface.w = 1 := toUnsigned_natCast 1 (by omega)
  have hh : toUnsigned tallSurface.h = 65539 := toUnsigned_natCast 65539 (by omega)
  have hp : tallSurface.pitch = 65535 := rfl
  have hm : ∀ a, load32 false tallSurface.pixels a = 0 := by
    intro a
    simp [load32, tallSurface]
  have hload : load32 false
      (fillColumns false tallSurface.pitch (toUnsigned tallSurface.h) 0xFFFFFFFF
        (toUnsigned tallSurface.w) tallSurface.pixels)
      (65538 * tallSurface.pitch + 0 * 4) = 0 := by
    rw [load32_fillColumns_disjoint, hm]
    intro i j hi hj
    rw [hw] at hi
    rw [hh] at hj
    rw [hp]
    unfold pixelOffset
    omega
  refine ⟨by decide, by decide, by decide, by decide, by decide, ?_⟩
  show load32 false
      (fillColumns false tallSurface.pitch (toUnsigned tallSurface.h) 0xFFFFFFFF
        (toUnsigned tallSurface.w) tallSurface.pixels)
      (65538 * tallSurface.pitch + 0 * 4) ≠ 0xFFFFFFFF
  rw [hload]
  decide

/-- C11: `SET_COLORFORMAT` round-trips the top bits of each channel.  For all 8-bit
`r`, `g`, `b` the value `p = SET_COLORFORMAT r g b` is below `2 ^ 16`, its three
bit fields are pairwise disjoint, decoding returns the truncated channels
(`p >> 11 = r >> 3`, `(p >> 5) & 0x3F = g >> 2`, `p & 0x1F = b >> 3`), and
`p = (r >> 3) * 2048 + (g >> 2) * 32 + (b >> 3)`. -/
theorem pack_round_trips_top_bits (r g b : Nat) (hr : r < 256) (hg : g < 256)
    (hb : b < 256) :
    SET_COLORFORMAT r g b < 2 ^ 16 ∧
    (((r >>> 3) <<< 11) &&& ((g >>> 2) <<< 5) = 0 ∧
      ((r >>> 3) <<< 11) &&& ((b >>> 3) <<< 0) = 0 ∧
      ((g >>> 2) <<< 5) &&& ((b >>> 3) <<< 0) = 0) ∧
    (SET_COLORFORMAT r g b) >>> 11 = r >>> 3 ∧
    ((SET_COLORFORMAT r g b) >>> 5) &&& 0x3F = g >>> 2 ∧
    (SET_COLORFORMAT r g b) &&& 0x1F = b >>> 3 ∧
    SET_COLORFORMAT r g b = (r >>> 3) * 2048 + (g >>> 2) * 32 + (b >>> 3) := by
  have hp := SET_COLORFORMAT_eq r g b hg hb
  refine ⟨?_, ⟨?_, ?_, ?_⟩, ?_, ?_, ?_, ?_⟩
  · rw [hp]; omega
  · apply and_of_fields _ _ 11
    · rw [Nat.shiftLeft_eq]; omega
    · rw [Nat.shiftLeft_eq, Nat.shiftRight_eq_div_pow]; omega
  · apply and_of_fields _ _ 11
    · rw [Nat.shiftLeft_eq]; omega
    · rw [Nat.shiftLeft_eq, Nat.shiftRight_eq_div_pow]; omega
  · apply and_of_fields _ _ 5
    · rw [Nat.shiftLeft_eq]; omega
    · rw [Nat.shiftLeft_eq, Nat.shiftRight_eq_div_pow]; omega
  · rw [hp]
    simp only [Nat.shiftRight_eq_div_pow]
    omega
  · show ((SET_COLORFORMAT r g b) >>> 5) &&& (2 ^ 6 - 1) = g >>> 2
    rw [Nat.and_pow_two_sub_one_eq_mod, hp]
    simp only [Nat.shiftRight_eq_div_pow]
    omega
  · show (SET_COLORFORMAT r g b) &&& (2 ^ 5 - 1) = b >>> 3
    rw [Nat.and_pow_two_sub_one_eq_mod, hp]
    simp only [Nat.shiftRight_eq_div_pow]
    omega
  · rw [hp]
    simp only [Nat.shiftRight_eq_div_pow]

/-- Witness for C11: the colour `(0x12, 0x34, 0x56)` packs to `0x11AA`, whose fields
decode to `2`, `13` and `10`. -/
theorem pack_round_trips_top_bits_witness :
    SET_COLORFORMAT 0x12 0x34 0x56 = 0x11AA ∧
    (SET_COLORFORMAT 0x12 0x34 0x56) >>> 11 = 0x12 >>> 3 ∧
    ((SET_COLORFORMAT 0x12 0x34 0x56) >>> 5) &&& 0x3F = 0x34 >>> 2 ∧
    (SET_COLORFORMAT 0x12 0x34 0x56) &&& 0x1F = 0x56 >>> 3 :=
  have h := pack_round_trips_top_bits 0x12 0x34 0x56 (by decide) (by decide) (by decide)
  ⟨by decide, h.2.2.1, h.2.2.2.1, h.2.2.2.2.1⟩

/-- C12: `SET_COLORFORMAT` truncates and never rounds.  For all 8-bit `r`, `g`, `b`:
the result is that of the channels masked with `0xF8`, `0xFC`, `0xF8`; channels
with the same top 5/6/5 bits give the same result; the result is monotone
non-decreasing in the channels; it is at most `0xFFFF` and equals `0xFFFF` exactly
when `r ≥ 0xF8`, `g ≥ 0xFC` and `b ≥ 0xF8`; in particular
`SET_COLORFORMAT 0xF8 0xFC 0xF8 = SET_COLORFORMAT 0xFF 0xFF 0xFF = 0xFFFF`. -/
theorem pack_truncates_never_rounds (r g b : Nat) (hr : r < 256) (hg : g < 256)
    (hb : b < 256) :
    SET_COLORFORMAT r g b = SET_COLORFORMAT (r &&& 0xF8) (g &&& 0xFC) (b &&& 0xF8) ∧
    (∀ r' g' b', r' < 256 → g' < 256 → b' < 256 →
      r' >>> 3 = r >>> 3 → g' >>> 2 = g >>> 2 → b' >>> 3 = b >>> 3 →
      SET_COLORFORMAT r' g' b' = SET_COLORFORMAT r g b) ∧
    (∀ r' g' b', r' < 256 → g' < 256 → b' < 256 → r ≤ r' → g ≤ g' → b ≤ b' →
      SET_COLORFORMAT r g b ≤ SET_COLORFORMAT r' g' b') ∧
    SET_COLORFORMAT r g b ≤ 0xFFFF ∧
    (SET_COLORFORMAT r g b = 0xFFFF ↔ 0xF8 ≤ r ∧ 0xFC ≤ g ∧ 0xF8 ≤ b) ∧
    SET_COLORFORMAT 0xF8 0xFC 0xF8 = 0xFFFF ∧
    SET_COLORFORMAT 0xFF 0xFF 0xFF = 0xFFFF := by
  have hp := SET_COLORFORMAT_eq r g b hg hb
  refine ⟨?_, ?_, ?_, ?_, ?_, by decide, by decide⟩
  · have hg' : g &&& 0xFC < 256 := Nat.lt_of_le_of_lt Nat.and_le_left hg
    have hb' : b &&& 0xF8 < 256 := Nat.lt_of_le_of_lt Nat.and_le_left hb
    rw [hp, SET_COLORFORMAT_eq _ _ _ hg' hb', mask_F8 r hr, mask_FC g hg, mask_F8 b hb]
  · intro r' g' b' _ hg' hb' h1 h2 h3
    simp only [Nat.shiftRight_eq_div_pow] at h1 h2 h3
    rw [hp, SET_COLORFORMAT_eq r' g' b' hg' hb']
    omega
  · intro r' g' b' _ hg' hb' h1 h2 h3
    rw [hp, SET_COLORFORMAT_eq r' g' b' hg' hb']
    omega
  · rw [hp]; omega
  · rw [hp]; omega

/-- Witness for C12: `(0xFF, 0x80, 0x07)` and `(0xF8, 0x80, 0x00)` differ only in low
bits and pack to the same value, which is below that of `(0xFF, 0x84, 0x08)`. -/
theorem pack_truncates_never_rounds_witness :
    SET_COLORFORMAT 0xF8 0x80 0x00 = SET_COLORFORMAT 0xFF 0x80 0x07 ∧
    SET_COLORFORMAT 0xFF 0x80 0x07 ≤ SET_COLORFORMAT 0xFF 0x84 0x08 :=
  have h := pack_truncates_never_rounds 0xFF 0x80 0x07 (by decide) (by decide) (by decide)
  ⟨h.2.1 0xF8 0x80 0x00 (by decide) (by decide) (by decide) (by decide) (by decide)
      (by decide),
    h.2.2.1 0xFF 0x84 0x08 (by decide) (by decide) (by decide) (by decide) (by decide)
      (by decide)⟩

/-- C13: after `LR_SetPalette` with a non-empty colour array the call returns and
every one of the 256 table entries equals `SET_COLORFORMAT r g b` of the first
colour (an 8-bit triple); the entries do not depend on the remaining colours, on
`firstcolor`, on `ncolors`, on the flags, on the surface or on the previous
table.  The macro `MAKECOLOR` of `surface.c:147` is taken to be the packing of
the spec; for any macro the entries are its value on the first colour, converted
to `unsigned short`. -/
theorem setPalette_fills_table_with_first_colour (table table' : PaletteTable)
    (surface surface' : Option SDL_Surface) (flags flags' : Int) (c : LR_Color)
    (rest rest' : List LR_Color) (firstcolor firstcolor' ncolors ncolors' : Int)
    (hr : c.r < 256) (hg : c.g < 256) (hb : c.b < 256) :
    (∃ out, LR_SetPalette MAKECOLOR table surface flags (c :: rest) firstcolor ncolors
        = some out ∧
      (∀ i, i < 256 → out.table i = SET_COLORFORMAT c.r c.g c.b) ∧
      ∃ out', LR_SetPalette MAKECOLOR table' surface' flags' (c :: rest') firstcolor' ncolors'
          = some out' ∧
        ∀ i, i < 256 → out'.table i = out.table i) ∧
    (∀ makecolor : Nat → Nat → Nat → Nat,
      ∃ out, LR_SetPalette makecolor table surface flags (c :: rest) firstcolor ncolors
          = some out ∧
        ∀ i, i < 256 → out.table i = makecolor c.r c.g c.b % 2 ^ 16) := by
  have hlt : SET_COLORFORMAT c.r c.g c.b < 2 ^ 16 := by
    rw [SET_COLORFORMAT_eq c.r c.g c.b hg hb]
    omega
  refine ⟨⟨_, rfl, ?_, _, rfl, ?_⟩, fun makecolor => ⟨_, rfl, ?_⟩⟩
  · intro i hi
    show fillPalette (MAKECOLOR c.r c.g c.b % 2 ^ 16) 256 table i = SET_COLORFORMAT c.r c.g c.b
    rw [fillPalette_apply, if_pos hi]
    exact Nat.mod_eq_of_lt hlt
  · intro i hi
    show fillPalette (MAKECOLOR c.r c.g c.b % 2 ^ 16) 256 table' i
      = fillPalette (MAKECOLOR c.r c.g c.b % 2 ^ 16) 256 table i
    rw [fillPalette_apply, fillPalette_apply, if_pos hi, if_pos hi]
  · intro i hi
    show fillPalette (makecolor c.r c.g c.b % 2 ^ 16) 256 table i
      = makecolor c.r c.g c.b % 2 ^ 16
    rw [fillPalette_apply, if_pos hi]

/-- Witness for C13: the array `[(0xFF, 0, 0), (1, 2, 3)]` with `firstcolor = 3`,
`ncolors = 2` on a table of sevens; entry 255 becomes `0xF800`, the packing of the
first colour. -/
theorem setPalette_fills_table_with_first_colour_witness :
    ∃ out, LR_SetPalette MAKECOLOR (fun _ => 7) none 0
        [{ r := 0xFF, g := 0, b := 0, unused := 0 }, { r := 1, g := 2, b := 3, unused := 0 }]
        3 2 = some out ∧
      out.table 255 = SET_COLORFORMAT 0xFF 0 0 ∧ SET_COLORFORMAT 0xFF 0 0 = 0xF800 :=
  (setPalette_fills_table_with_first_colour (fun _ => 7) (fun _ => 0) none none 0 0
      { r := 0xFF, g := 0, b := 0, unused := 0 } [{ r := 1, g := 2, b := 3, unused := 0 }] []
      3 0 2 0 (by decide) (by decide) (by decide)).1.elim
    (fun out h => ⟨out, h.1, h.2.1 255 (by decide), by decide⟩)

/-- C14: `LR_FillRect` rebuilds the palette table as a side effect.  After the call
with colour `c`, on any surface, every one of the 256 table entries equals
`c % 2 ^ 16`, whatever the previous table, the surface geometry, the byte order
and the rect argument are. -/
theorem fill_rebuilds_palette (be be' : Bool) (table table' : PaletteTable)
    (surface surface' : SDL_Surface) (rect_data rect_data' : Option SDL_Rect) (color : Nat)
    (i : Nat) (hi : i < 256) :
    (LR_FillRect be table surface rect_data color).1 i = color % 2 ^ 16 ∧
    (LR_FillRect be' table' surface' rect_data' color).1 i
      = (LR_FillRect be table surface rect_data color).1 i := by
  have h : ∀ (e : Bool) (t : PaletteTable) (s : SDL_Surface) (q : Option SDL_Rect),
      (LR_FillRect e t s q color).1 i = color % 2 ^ 16 := by
    intro e t s q
    show fillPalette (color % 2 ^ 16) 256 t i = color % 2 ^ 16
    rw [fillPalette_apply, if_pos hi]
  exact ⟨h be table surface rect_data, by rw [h, h]⟩

/-- Witness for C14: a surface of zero width and height and a table of sevens,
filled with `0x12345678`; entry 255 becomes `0x5678`. -/
theorem fill_rebuilds_palette_witness :
    (255 : Nat) < 256 ∧
    (LR_FillRect false (fun _ => 7) (blankSurface 0 0) none 0x12345678).1 255
      = 0x12345678 % 2 ^ 16 ∧
    0x12345678 % 2 ^ 16 = 0x5678 :=
  ⟨by decide,
    (fill_rebuilds_palette false true (fun _ => 7) (fun _ => 0) (blankSurface 0 0)
      paddedSurface none none 0x12345678 255 (by decide)).1,
    by decide⟩

/-- C15 (as amended): on present, unlocked surfaces and for every supplied
`dstrect = {x, y, w, h}`, whenever `LR_BlitSurface` calls `LRSDL_LowerBlit`, the
destination rectangle it passes has its origin at or after `(x, y)`, lies inside
`dst->clip_rect`, and its right and bottom edges do not exceed `x` plus the
requested source width and `y` plus the requested source height (the size of the
source surface when no source rectangle is given).  The incoming `w` and `h` of
`dstrect` are never read and bound nothing. -/
theorem blit_dest_within_origin_and_clip (lower : LowerBlit) (src dst : SDL_Surface)
    (srcrect : Option SDL_Rect) (d : SDL_Rect) (hs : src.locked = 0) (hd : dst.locked = 0)
    (sr dr : SDL_Rect)
    (hcall : (sr, dr) ∈
      (LR_BlitSurface lower { surf := some src } srcrect { surf := some dst } (some d)).calls) :
    (d.x ≤ dr.x ∧ d.y ≤ dr.y) ∧
    (dr.x + dr.w ≤ d.x + (requestedSource src srcrect).w ∧
      dr.y + dr.h ≤ d.y + (requestedSource src srcrect).h) ∧
    (dst.clip_rect.x ≤ dr.x ∧ dr.x + dr.w ≤ dst.clip_rect.x + dst.clip_rect.w ∧
      dst.clip_rect.y ≤ dr.y ∧ dr.y + dr.h ≤ dst.clip_rect.y + dst.clip_rect.h) := by
  obtain ⟨_, _, _, hdr⟩ := call_of_mem lower src dst srcrect (some d) hs hd sr dr hcall
  subst hdr
  rw [clipX_span src dst srcrect (some d), clipY_span src dst srcrect (some d)]
  simp only [destRect, spanBox, spanLo, spanHi, startRect]
  refine ⟨⟨?_, ?_⟩, ⟨?_, ?_⟩, ?_, ?_, ?_, ?_⟩ <;> omega

/-- Witness for C15 (as amended): the scenario of the spec, `dstrect = {16, 16, 0, 0}`
with a 64x64 source rectangle; the destination rectangle `{16, 16, 16, 16}` starts
at the requested origin and ends before `16 + 64`. -/
theorem blit_dest_within_origin_and_clip_witness :
    (({ x := 0, y := 0, w := 16, h := 16 }, { x := 16, y := 16, w := 16, h := 16 }) ∈
      (LR_BlitSurface idleBlit { surf := some (blankSurface 64 64) }
        (some { x := 0, y := 0, w := 64, h := 64 }) { surf := some (blankSurface 32 32) }
        (some { x := 16, y := 16, w := 0, h := 0 })).calls) ∧
    ((16 : Int) ≤ 16 ∧ (16 : Int) ≤ 16) ∧
    ((16 : Int) + 16 ≤ 16 + 64 ∧ (16 : Int) + 16 ≤ 16 + 64) :=
  have h := blit_dest_within_origin_and_clip idleBlit (blankSurface 64 64)
    (blankSurface 32 32) (some { x := 0, y := 0, w := 64, h := 64 })
    { x := 16, y := 16, w := 0, h := 0 } rfl rfl
    { x := 0, y := 0, w := 16, h := 16 } { x := 16, y := 16, w := 16, h := 16 } (by decide)
  ⟨by decide, h.1, h.2.1⟩

/-- Counterexample to C15 as stated, the scenario of the spec: with
`dstrect = {16, 16, 0, 0}` the backend is called with the destination rectangle
`{16, 16, 16, 16}`, whose right edge `32` exceeds `x + w = 16` and whose bottom
edge `32` exceeds `y + h = 16`. -/
theorem blit_dest_exceeds_requested_size_counterexample :
    (blankSurface 64 64).locked = 0 ∧ (blankSurface 32 32).locked = 0 ∧
    (({ x := 0, y := 0, w := 16, h := 16 }, { x := 16, y := 16, w := 16, h := 16 }) ∈
      (LR_BlitSurface idleBlit { surf := some (blankSurface 64 64) }
        (some { x := 0, y := 0, w := 64, h := 64 }) { surf := some (blankSurface 32 32) }
        (some { x := 16, y := 16, w := 0, h := 0 })).calls) ∧
    ¬ ((16 : Int) + 16 ≤ 16 + 0) := by
  refine ⟨rfl, rfl, by decide, by decide⟩

/-- C16: omitted rectangles are equivalent to their defaults.  On present, unlocked
surfaces, a blit without source rectangle has the same outcome (call of
`LRSDL_LowerBlit` or no-op, status, `dstrect`) as a blit with
`srcrect = {0, 0, src.w, src.h}`, for every destination rectangle given or
omitted; and a blit without destination rectangle makes the same call of
`LRSDL_LowerBlit`, returns the same status and leaves the same surfaces as a blit
with `dstrect = {0, 0, w, h}`, for any `w`, `h` and every source rectangle given or
omitted. -/
theorem blit_omitted_rects_are_defaults (lower : LowerBlit) (src dst : SDL_Surface)
    (hs : src.locked = 0) (hd : dst.locked = 0) :
    (∀ dstrect : Option SDL_Rect,
      LR_BlitSurface lower { surf := some src } none { surf := some dst } dstrect
        = LR_BlitSurface lower { surf := some src }
            (some { x := 0, y := 0, w := src.w, h := src.h }) { surf := some dst } dstrect) ∧
    (∀ (srcrect : Option SDL_Rect) (w h : Int),
      (LR_BlitSurface lower { surf := some src } srcrect { surf := some dst } none).calls
        = (LR_BlitSurface lower { surf := some src } srcrect { surf := some dst }
            (some { x := 0, y := 0, w := w, h := h })).calls ∧
      (LR_BlitSurface lower { surf := some src } srcrect { surf := some dst } none).status
        = (LR_BlitSurface lower { surf := some src } srcrect { surf := some dst }
            (some { x := 0, y := 0, w := w, h := h })).status ∧
      (LR_BlitSurface lower { surf := some src } srcrect { surf := some dst } none).dst
        = (LR_BlitSurface lower { surf := some src } srcrect { surf := some dst }
            (some { x := 0, y := 0, w := w, h := h })).dst) := by
  constructor
  · intro dstrect
    rw [LR_BlitSurface_unlocked lower src dst none dstrect hs hd,
      LR_BlitSurface_unlocked lower src dst _ dstrect hs hd, clipX_full, clipY_full]
  · intro srcrect w h
    have hx : clipX src srcrect dst (startRect (some { x := 0, y := 0, w := w, h := h }))
        = clipX src srcrect dst (startRect none) := clipX_start src dst srcrect _ _ rfl
    have hy : clipY src srcrect dst (startRect (some { x := 0, y := 0, w := w, h := h }))
        = clipY src srcrect dst (startRect none) := clipY_start src dst srcrect _ _ rfl
    rw [LR_BlitSurface_unlocked lower src dst srcrect none hs hd,
      LR_BlitSurface_unlocked lower src dst srcrect _ hs hd, hx, hy]
    split_ifs <;> exact ⟨rfl, rfl, rfl⟩

/-- Witness for C16: a 64x64 source blitted to a 32x32 destination with both
rectangles omitted and with both defaults written out (`dstrect = {0, 0, 9, 9}`);
both calls hand `{0, 0, 32, 32}` twice to the backend. -/
theorem blit_omitted_rects_are_defaults_witness :
    (LR_BlitSurface idleBlit { surf := some (blankSurface 64 64) } none
        { surf := some (blankSurface 32 32) } none).calls
      = [({ x := 0, y := 0, w := 32, h := 32 }, { x := 0, y := 0, w := 32, h := 32 })] ∧
    (LR_BlitSurface idleBlit { surf := some (blankSurface 64 64) } none
        { surf := some (blankSurface 32 32) } none).calls
      = (LR_BlitSurface idleBlit { surf := some (blankSurface 64 64) }
          (some { x := 0, y := 0, w := (blankSurface 64 64).w, h := (blankSurface 64 64).h })
          { surf := some (blankSurface 32 32) } (some { x := 0, y := 0, w := 9, h := 9 })).calls :=
  have h := blit_omitted_rects_are_defaults idleBlit (blankSurface 64 64) (blankSurface 32 32)
    rfl rfl
  ⟨by decide, (congrArg BlitOutcome.calls (h.1 none)).trans
    (h.2 (some { x := 0, y := 0, w := (blankSurface 64 64).w, h := (blankSurface 64 64).h })
      9 9).1⟩

/-- C17 (as amended): for a successful monotonic clock reading of `s` seconds and
`n` nanoseconds (`n < 10 ^ 9`, the nanosecond count `s * 10 ^ 9 + n` within 64
bits) `LR_GetTicks` returns the whole milliseconds `s * 1000 + n / 10 ^ 6`, reduced
to 32 bits; for a microsecond count `u = 1000000 * tv_sec + tv_usec` within 64 bits
it returns `u / 10 ^ 6`, reduced to 32 bits. -/
theorem ticks_divide_reading_by_million (s n tv_sec tv_usec : Nat) :
    (n < 10 ^ 9 → s * 10 ^ 9 + n < 2 ^ 64 →
      LR_GetTicks (ClockReading.monotonic 0 s n) = (s * 1000 + n / 10 ^ 6) % 2 ^ 32) ∧
    (1000000 * tv_sec + tv_usec < 2 ^ 64 →
      LR_GetTicks (ClockReading.timeofday tv_sec tv_usec)
        = ((1000000 * tv_sec + tv_usec) / 10 ^ 6) % 2 ^ 32) := by
  constructor
  · intro hn hfit
    have hs : s % 2 ^ 64 = s := Nat.mod_eq_of_lt (by omega)
    have hn' : n % 2 ^ 64 = n := Nat.mod_eq_of_lt (by omega)
    have hsum : (s * 1000000000 + n) % 2 ^ 64 = s * 1000000000 + n :=
      Nat.mod_eq_of_lt (by omega)
    have hdiv : (s * 1000000000 + n) / 1000000 = s * 1000 + n / 10 ^ 6 := by omega
    simp only [LR_GetTicks, rarch_get_perf_counter, time_ticks, if_true, hs, hn', hsum, hdiv]
  · intro hfit
    have hsum : (1000000 * tv_sec + tv_usec) % 2 ^ 64 = 1000000 * tv_sec + tv_usec :=
      Nat.mod_eq_of_lt hfit
    simp only [LR_GetTicks, rarch_get_perf_counter, time_ticks, hsum]
    norm_num

/-- Witness for C17 (as amended): 5 s and 123456789 ns read as 5123 ticks; 5 s and
123456 microseconds read as 5 ticks. -/
theorem ticks_divide_reading_by_million_witness :
    LR_GetTicks (ClockReading.monotonic 0 5 123456789) = (5 * 1000 + 123456789 / 10 ^ 6) % 2 ^ 32 ∧
    (5 * 1000 + 123456789 / 10 ^ 6) % 2 ^ 32 = 5123 ∧
    LR_GetTicks (ClockReading.timeofday 5 123456)
      = ((1000000 * 5 + 123456) / 10 ^ 6) % 2 ^ 32 ∧
    ((1000000 * 5 + 123456) / 10 ^ 6) % 2 ^ 32 = 5 :=
  have h := ticks_divide_reading_by_million 5 123456789 5 123456
  ⟨h.1 (by decide) (by decide), by decide, h.2 (by decide), by decide⟩

/-- Counterexample to C17 as stated: for the monotonic reading of 5 seconds and
123456789 nanoseconds `LR_GetTicks` returns `5123`, not the seconds `5`. -/
theorem ticks_monotonic_not_seconds_counterexample :
    (123456789 : Nat) < 10 ^ 9 ∧
    LR_GetTicks (ClockReading.monotonic 0 5 123456789) = 5123 ∧
    LR_GetTicks (ClockReading.monotonic 0 5 123456789) ≠ 5 % 2 ^ 32 := by
  refine ⟨by decide, by decide, by decide⟩

/-- C18: only the position of `dstrect` is an input.  On present, unlocked surfaces,
two calls of `LR_BlitSurface` that agree on the surfaces, on `srcrect` and on
`dstrect->x`, `dstrect->y` have the same outcome whatever the incoming
`dstrect->w` and `dstrect->h` are: the same calls of `LRSDL_LowerBlit`, the same
status and the same final `dstrect`. -/
theorem blit_ignores_incoming_dest_size (lower : LowerBlit) (src dst : SDL_Surface)
    (srcrect : Option SDL_Rect) (d1 d2 : SDL_Rect) (hs : src.locked = 0)
    (hd : dst.locked = 0) (hx : d1.x = d2.x) (hy : d1.y = d2.y) :
    LR_BlitSurface lower { surf := some src } srcrect { surf := some dst } (some d1)
      = LR_BlitSurface lower { surf := some src } srcrect { surf := some dst } (some d2) := by
  have hX : clipX src srcrect dst (startRect (some d1))
      = clipX src srcrect dst (startRect (some d2)) := clipX_start src dst srcrect _ _ hx
  have hY : clipY src srcrect dst (startRect (some d1))
      = clipY src srcrect dst (startRect (some d2)) := clipY_start src dst srcrect _ _ hy
  rw [LR_BlitSurface_unlocked lower src dst srcrect (some d1) hs hd,
    LR_BlitSurface_unlocked lower src dst srcrect (some d2) hs hd, hX, hY]
  rfl

/-- Witness for C18: the blit of the spec scenario with incoming sizes `0 x 0` and
`500 x 3`; both leave `dstrect = {16, 16, 16, 16}`. -/
theorem blit_ignores_incoming_dest_size_witness :
    (LR_BlitSurface idleBlit { surf := some (blankSurface 64 64) }
        (some { x := 0, y := 0, w := 64, h := 64 }) { surf := some (blankSurface 32 32) }
        (some { x := 16, y := 16, w := 0, h := 0 })).dstrect
      = some { x := 16, y := 16, w := 16, h := 16 } ∧
    (LR_BlitSurface idleBlit { surf := some (blankSurface 64 64) }
        (some { x := 0, y := 0, w := 64, h := 64 }) { surf := some (blankSurface 32 32) }
        (some { x := 16, y := 16, w := 0, h := 0 })).dstrect
      = (LR_BlitSurface idleBlit { surf := some (blankSurface 64 64) }
          (some { x := 0, y := 0, w := 64, h := 64 }) { surf := some (blankSurface 32 32) }
          (some { x := 16, y := 16, w := 500, h := 3 })).dstrect :=
  ⟨by decide,
    congrArg BlitOutcome.dstrect
      (blit_ignores_incoming_dest_size idleBlit (blankSurface 64 64) (blankSurface 32 32)
        (some { x := 0, y := 0, w := 64, h := 64 }) { x := 16, y := 16, w := 0, h := 0 }
        { x := 16, y := 16, w := 500, h := 3 } rfl rfl rfl rfl)⟩

/-- C19: clipping is idempotent.  On present, unlocked surfaces, if
`LR_BlitSurface` with `srcrect`, `dstrect` calls `LRSDL_LowerBlit` with the source
rectangle `sr` and the destination rectangle `dr`, then `LR_BlitSurface` with
`sr` and `dr` on the same surfaces calls `LRSDL_LowerBlit` once, with exactly `sr`
and `dr`, and leaves `dstrect` equal to `dr`. -/
theorem blit_clipping_idempotent (lower : LowerBlit) (src dst : SDL_Surface)
    (srcrect dstrect : Option SDL_Rect) (hs : src.locked = 0) (hd : dst.locked = 0)
    (sr dr : SDL_Rect)
    (hcall : (sr, dr) ∈
      (LR_BlitSurface lower { surf := some src } srcrect { surf := some dst } dstrect).calls) :
    (LR_BlitSurface lower { surf := some src } (some sr) { surf := some dst } (some dr)).calls
      = [(sr, dr)] ∧
    (LR_BlitSurface lower { surf := some src } (some sr) { surf := some dst } (some dr)).dstrect
      = some dr := by
  obtain ⟨hx, hy, hsr, hdr⟩ := call_of_mem lower src dst srcrect dstrect hs hd sr dr hcall
  obtain ⟨x1, x2, _, x4, x5⟩ := clipX_bounds src dst srcrect (startRect dstrect)
  obtain ⟨y1, y2, _, y4, y5⟩ := clipY_bounds src dst srcrect (startRect dstrect)
  have hX : clipX src (some sr) dst (startRect (some dr))
      = { spos := sr.x, len := sr.w, dpos := dr.x } := by
    apply clipX_valid
    · rw [hsr]; exact x1
    · rw [hsr]; exact x2
    · rw [hdr]; exact x4
    · rw [hsr, hdr]; exact x5
  have hY : clipY src (some sr) dst (startRect (some dr))
      = { spos := sr.y, len := sr.h, dpos := dr.y } := by
    apply clipY_valid
    · rw [hsr]; exact y1
    · rw [hsr]; exact y2
    · rw [hdr]; exact y4
    · rw [hsr, hdr]; exact y5
  have hpos : 0 < sr.w ∧ 0 < sr.h := by
    rw [hsr]; exact ⟨hx, hy⟩
  have hsr' : sourceRect { spos := sr.x, len := sr.w, dpos := dr.x }
      { spos := sr.y, len := sr.h, dpos := dr.y } = sr := rfl
  have hdr' : destRect { spos := sr.x, len := sr.w, dpos := dr.x }
      { spos := sr.y, len := sr.h, dpos := dr.y } = dr := by
    rw [hsr, hdr]; rfl
  rw [LR_BlitSurface_unlocked lower src dst (some sr) (some dr) hs hd, hX, hY,
    if_pos hpos, hsr', hdr']
  exact ⟨rfl, rfl⟩

/-- Witness for C19: the blit of `{-5, -3, 40, 40}` to `{10, 1}` under the clip
rectangle `{4, 4, 20, 20}` calls the backend with `{0, 0, 9, 20}` and
`{15, 4, 9, 20}`; blitting these two rectangles again gives the same call. -/
theorem blit_clipping_idempotent_witness :
    (({ x := 0, y := 0, w := 9, h := 20 }, { x := 15, y := 4, w := 9, h := 20 }) ∈
      (LR_BlitSurface idleBlit { surf := some (blankSurface 64 64) }
        (some { x := -5, y := -3, w := 40, h := 40 })
        { surf := some { blankSurface 32 32 with clip_rect := { x := 4, y := 4, w := 20, h := 20 } } }
        (some { x := 10, y := 1, w := 0, h := 0 })).calls) ∧
    (LR_BlitSurface idleBlit { surf := some (blankSurface 64 64) }
        (some { x := 0, y := 0, w := 9, h := 20 })
        { surf := some { blankSurface 32 32 with clip_rect := { x := 4, y := 4, w := 20, h := 20 } } }
        (some { x := 15, y := 4, w := 9, h := 20 })).calls
      = [({ x := 0, y := 0, w := 9, h := 20 }, { x := 15, y := 4, w := 9, h := 20 })] :=
  ⟨by decide,
    (blit_clipping_idempotent idleBlit (blankSurface 64 64)
      { blankSurface 32 32 with clip_rect := { x := 4, y := 4, w := 20, h := 20 } }
      (some { x := -5, y := -3, w := 40, h := 40 }) (some { x := 10, y := 1, w := 0, h := 0 })
      rfl rfl { x := 0, y := 0, w := 9, h := 20 } { x := 15, y := 4, w := 9, h := 20 }
      (by decide)).1⟩

end Surface
